import Mathlib

/-
  Verification of the breakout+reentry trading engine of this repository.

  Shallow embedding conventions:
  * Python floats are modelled as exact rationals (ℚ); `json` round-trips floats
    exactly via repr, so modelling the numeric payloads as ℚ is faithful for the
    serialization claims, and the detector logic is pure rational arithmetic.
  * Python dicts used per-symbol are modelled as functions `Symbol → Option α`
    in the scan model (only lookup/update/delete are used there) and as
    association lists in the persistence model (where iteration order matters
    for serialization).
  * `datetime` timestamps in the scan model are rational numbers of seconds
    (`(a - b).total_seconds()` is subtraction); in the persistence model they
    are `DateTime` records with a character-level ISO-8601 render/parse pair.
  * Calls into `math.sqrt` / `math.atan`+`math.degrees` (transcendental, not
    expressible in ℚ) are abstracted as function parameters `sqrtF`, `atanDegF`;
    every theorem proved about code using them holds for all instantiations.
-/

namespace CocoBot

abbrev Symbol := String

/-- Breakout kinds, the strings "BREAKOUT_LONG" / "BREAKOUT_SHORT" in the source. -/
inductive TipoBreakout where
  | BREAKOUT_LONG
  | BREAKOUT_SHORT
deriving DecidableEq, Repr

/-- Operation sides, the strings "LONG" / "SHORT" in the source. -/
inductive TipoOperacion where
  | LONG
  | SHORT
deriving DecidableEq, Repr

/-- Trend direction, the strings "🟢 ALCISTA" / "🔴 BAJISTA" / "⚪ RANGO" in the source. -/
inductive Direccion where
  | ALCISTA
  | BAJISTA
  | RANGO
deriving DecidableEq, Repr

/-- The channel descriptor dict (`info_canal`) as consumed by the detector:
only the keys the scan-cycle logic reads (breakout_reentry code). -/
structure InfoCanal where
  resistencia : ℚ
  soporte : ℚ
  stoch_k : ℚ
  stoch_d : ℚ
  nivel_fuerza : ℕ
  coeficiente_pearson : ℚ
  r2_score : ℚ
  ancho_canal_porcentual : ℚ
  angulo_tendencia : ℚ
  direccion : Direccion
deriving DecidableEq, Repr

/-- The `datos_mercado` dict as consumed by the detector: current price and the
last close (`datos_mercado['cierres'][-1]`). -/
structure DatosMercado where
  precio_actual : ℚ
  precio_cierre : ℚ
deriving DecidableEq, Repr

/-- The per-symbol optimal configuration dict (`config_optima`). -/
structure ConfigOptima where
  timeframe : String
  num_velas : ℕ
deriving DecidableEq, Repr

/-- The relevant entries of the bot's `self.config` dict.  Defaults in the
source: `min_channel_width_percent` 4.0, `min_trend_strength_degrees` 16,
`min_rr_ratio` 1.2 (all present in the deployed config, see
src/src/config/environment.py). -/
structure Config where
  symbols : List Symbol
  min_channel_width_percent : ℚ
  min_trend_strength_degrees : ℚ
  min_rr_ratio : ℚ
deriving DecidableEq, Repr

/-- A value of `self.esperando_reentry[simbolo]` (created in `escanear_mercado`). -/
structure EsperandoInfoQ where
  tipo : TipoBreakout
  timestamp : ℚ
  precio_breakout : ℚ
  config : ConfigOptima
deriving DecidableEq, Repr

/-- A value of `self.breakouts_detectados[simbolo]` (created in `escanear_mercado`). -/
structure BreakoutDetQ where
  tipo : TipoBreakout
  timestamp : ℚ
  precio_breakout : ℚ
deriving DecidableEq, Repr

/-- A value of `self.operaciones_activas[simbolo]` (created in
`generar_senal_operacion`); only the fields the scan logic reads back. -/
structure Operacion where
  tipo : TipoOperacion
  precio_entrada : ℚ
  take_profit : ℚ
  stop_loss : ℚ
  timestamp_entrada : ℚ
deriving DecidableEq, Repr

/-- Python dicts keyed by symbol, as used by the scan logic (lookup, item
assignment, deletion); modelled extensionally. -/
def FMap (α : Type) : Type := Symbol → Option α

/-- `d[k] = v`. -/
def FMap.set {α : Type} (d : FMap α) (k : Symbol) (v : α) : FMap α :=
  fun s => if s = k then some v else d s

/-- `del d[k]` (also sound for `d.pop(k, None)`). -/
def FMap.borrar {α : Type} (d : FMap α) (k : Symbol) : FMap α :=
  fun s => if s = k then none else d s

/-- `k in d`. -/
def FMap.tiene {α : Type} (d : FMap α) (k : Symbol) : Bool :=
  (d k).isSome

/-- The empty dict `{}`. -/
def FMap.vacio {α : Type} : FMap α := fun _ => none

/-- Python's `abs` on rationals, written so that it evaluates by kernel
reduction (Mathlib's lattice-derived `|·|` does not). -/
def pyabs (q : ℚ) : ℚ := if q < 0 then -q else q

/-- The mutable per-symbol state of the TradingBot that the scan loop touches. -/
structure ScanState where
  operaciones_activas : FMap Operacion
  esperando_reentry : FMap EsperandoInfoQ
  breakouts_detectados : FMap BreakoutDetQ
  breakout_history : FMap ℚ
  senales_enviadas : List Symbol
  total_operaciones : ℕ

/-- The freshly initialized state (`__init__`: all maps empty, counters zero). -/
def estadoVacio : ScanState where
  operaciones_activas := FMap.vacio
  esperando_reentry := FMap.vacio
  breakouts_detectados := FMap.vacio
  breakout_history := FMap.vacio
  senales_enviadas := []
  total_operaciones := 0

/-- An emitted trade signal (the arguments of the `generar_senal_operacion` call). -/
structure Senal where
  simbolo : Symbol
  tipo : TipoOperacion
  precio_entrada : ℚ
  take_profit : ℚ
  stop_loss : ℚ
deriving DecidableEq, Repr

/-- `detectar_breakout` (src/src/strategies/breakout_reentry_strategy.py,
lines 413-449).  `now` is `datetime.now()` in seconds; the elapsed time is
`(now - ts).total_seconds() / 60` minutes.  The dead local `margen_breakout`
is dropped. -/
def detectar_breakout (cfg : Config) (breakouts_detectados : FMap BreakoutDetQ)
    (simbolo : Symbol) (info_canal : InfoCanal) (datos : DatosMercado)
    (now : ℚ) : Option TipoBreakout :=
  if info_canal.ancho_canal_porcentual < cfg.min_channel_width_percent then none
  else if pyabs info_canal.angulo_tendencia < cfg.min_trend_strength_degrees then none
  else if pyabs info_canal.coeficiente_pearson < 2/5 ∨ info_canal.r2_score < 2/5 then none
  else if (match breakouts_detectados simbolo with
           | some ultimo => decide ((now - ultimo.timestamp) / 60 < 25)
           | none => false) then none
  else if info_canal.direccion = Direccion.ALCISTA ∧ 2 ≤ info_canal.nivel_fuerza then
    if datos.precio_cierre < info_canal.soporte then some TipoBreakout.BREAKOUT_LONG else none
  else if info_canal.direccion = Direccion.BAJISTA ∧ 2 ≤ info_canal.nivel_fuerza then
    if info_canal.resistencia < datos.precio_cierre then some TipoBreakout.BREAKOUT_SHORT else none
  else none

/-- `detectar_reentry` (src/src/strategies/srcStrategiesBreakout_reentry_continued.py,
lines 13-52).  Returns the result together with the mutated state: the timeout
branch deletes the symbol from both `esperando_reentry` and
`breakouts_detectados`; the confirmation branches delete it from
`breakouts_detectados` only. -/
def detectar_reentry (st : ScanState) (simbolo : Symbol) (info_canal : InfoCanal)
    (datos : DatosMercado) (now : ℚ) : Option TipoOperacion × ScanState :=
  match st.esperando_reentry simbolo with
  | none => (none, st)
  | some breakout_info =>
    let tiempo_desde_breakout := (now - breakout_info.timestamp) / 60
    if 30 < tiempo_desde_breakout then
      (none, { st with
        esperando_reentry := FMap.borrar st.esperando_reentry simbolo,
        breakouts_detectados := FMap.borrar st.breakouts_detectados simbolo })
    else
      let precio_actual := datos.precio_actual
      let resistencia := info_canal.resistencia
      let soporte := info_canal.soporte
      let tolerancia := 1/1000 * precio_actual
      match breakout_info.tipo with
      | TipoBreakout.BREAKOUT_LONG =>
        if soporte ≤ precio_actual ∧ precio_actual ≤ resistencia then
          if pyabs (precio_actual - soporte) ≤ tolerancia ∧
             info_canal.stoch_k ≤ 30 ∧ info_canal.stoch_d ≤ 30 then
            (some TipoOperacion.LONG,
             { st with breakouts_detectados := FMap.borrar st.breakouts_detectados simbolo })
          else (none, st)
        else (none, st)
      | TipoBreakout.BREAKOUT_SHORT =>
        if soporte ≤ precio_actual ∧ precio_actual ≤ resistencia then
          if pyabs (precio_actual - resistencia) ≤ tolerancia ∧
             70 ≤ info_canal.stoch_k ∧ 70 ≤ info_canal.stoch_d then
            (some TipoOperacion.SHORT,
             { st with breakouts_detectados := FMap.borrar st.breakouts_detectados simbolo })
          else (none, st)
        else (none, st)

/-- `calcular_niveles_entrada` (src/src/strategies/srcStrategiesBreakout_reentry_continued.py,
lines 54-78).  The Python `(None, None, None)` result for a missing channel is
`none`; otherwise the triple `(precio_entrada, take_profit, stop_loss)`.
Python computes `ratio_rr = beneficio / riesgo if riesgo > 0 else 0`, which
coincides with ℚ division (division by zero is zero). -/
def calcular_niveles_entrada (cfg : Config) (tipo_operacion : TipoOperacion)
    (info_canal : Option InfoCanal) (precio_actual : ℚ) : Option (ℚ × ℚ × ℚ) :=
  match info_canal with
  | none => none
  | some canal =>
    let resistencia := canal.resistencia
    let soporte := canal.soporte
    let ancho_canal := resistencia - soporte
    let sl_porcentaje : ℚ := 2/100
    let precio_entrada := precio_actual
    let stop_loss :=
      match tipo_operacion with
      | TipoOperacion.LONG => precio_entrada * (1 - sl_porcentaje)
      | TipoOperacion.SHORT => resistencia * (1 + sl_porcentaje)
    let take_profit :=
      match tipo_operacion with
      | TipoOperacion.LONG => precio_entrada + ancho_canal
      | TipoOperacion.SHORT => precio_entrada - ancho_canal
    let riesgo := pyabs (precio_entrada - stop_loss)
    let beneficio := pyabs (take_profit - precio_entrada)
    let ratio_rr := if 0 < riesgo then beneficio / riesgo else 0
    let take_profit' :=
      if ratio_rr < cfg.min_rr_ratio then
        match tipo_operacion with
        | TipoOperacion.LONG => precio_entrada + riesgo * cfg.min_rr_ratio
        | TipoOperacion.SHORT => precio_entrada - riesgo * cfg.min_rr_ratio
      else take_profit
    some (precio_entrada, take_profit', stop_loss)

/-- `generar_senal_operacion` state effect (src/bot_web_service.py, lines
1317-1388, the variant the monolithic bot runs): if the signal was already
sent for the symbol it returns immediately; otherwise it records the active
operation, marks the signal as sent and bumps the trade counter.  The
Telegram message itself is external output. -/
def generar_senal_operacion (st : ScanState) (simbolo : Symbol)
    (tipo_operacion : TipoOperacion) (precio_entrada tp sl : ℚ) (now : ℚ) : ScanState :=
  if simbolo ∈ st.senales_enviadas then st
  else
    { st with
      operaciones_activas := FMap.set st.operaciones_activas simbolo
        { tipo := tipo_operacion, precio_entrada := precio_entrada,
          take_profit := tp, stop_loss := sl, timestamp_entrada := now },
      senales_enviadas := simbolo :: st.senales_enviadas,
      total_operaciones := st.total_operaciones + 1 }

/-- The per-cycle external inputs for one symbol: the result of
`buscar_configuracion_optima_simbolo`, `obtener_datos_mercado_config` and
`calcular_canal_regresion_config` (each `None` on failure, which makes
`escanear_mercado` skip the symbol). -/
structure CycleInput where
  config_optima : Option ConfigOptima
  datos_mercado : Option DatosMercado
  info_canal : Option InfoCanal

/-- The tail of one `escanear_mercado` loop iteration, from the
`detectar_reentry` call onward (src/src/strategies/srcStrategiesBreakout_reentry_continued.py,
lines 146-167).  In the source a `continue` is a `(state, none)` result. -/
def procesar_tail (cfg : Config) (st : ScanState) (simbolo : Symbol)
    (datos : DatosMercado) (info_canal : InfoCanal) (now : ℚ) :
    ScanState × Option Senal :=
  let res := detectar_reentry st simbolo info_canal datos now
  match res.1 with
  | none => (res.2, none)
  | some tipo_operacion =>
    match calcular_niveles_entrada cfg tipo_operacion (some info_canal) datos.precio_actual with
    | none => (res.2, none)
    | some (precio_entrada, tp, sl) =>
      if precio_entrada = 0 ∨ tp = 0 ∨ sl = 0 then (res.2, none)
      else if (match res.2.breakout_history simbolo with
               | some ultimo => decide ((now - ultimo) / 3600 < 2)
               | none => false) then (res.2, none)
      else
        let st2 := generar_senal_operacion res.2 simbolo tipo_operacion precio_entrada tp sl now
        ({ st2 with
            breakout_history := FMap.set st2.breakout_history simbolo now,
            esperando_reentry := FMap.borrar st2.esperando_reentry simbolo },
         some { simbolo := simbolo, tipo := tipo_operacion,
                precio_entrada := precio_entrada, take_profit := tp, stop_loss := sl })

/-- One iteration of the `escanear_mercado` loop for one symbol
(src/src/strategies/srcStrategiesBreakout_reentry_continued.py, lines 84-167):
skip on active operation / missing config / missing data / missing channel;
hard data-quality gate; breakout registration for symbols not awaiting
reentry; otherwise fall through to the reentry tail. -/
def procesar_simbolo (cfg : Config) (st : ScanState) (simbolo : Symbol)
    (inp : CycleInput) (now : ℚ) : ScanState × Option Senal :=
  if FMap.tiene st.operaciones_activas simbolo then (st, none)
  else match inp.config_optima with
  | none => (st, none)
  | some config_optima =>
    match inp.datos_mercado with
    | none => (st, none)
    | some datos =>
      match inp.info_canal with
      | none => (st, none)
      | some info_canal =>
        if info_canal.nivel_fuerza < 2 ∨ pyabs info_canal.coeficiente_pearson < 2/5 ∨
           info_canal.r2_score < 2/5 then (st, none)
        else if ¬ FMap.tiene st.esperando_reentry simbolo then
          match detectar_breakout cfg st.breakouts_detectados simbolo info_canal datos now with
          | some tipo_breakout =>
            ({ st with
                esperando_reentry := FMap.set st.esperando_reentry simbolo
                  { tipo := tipo_breakout, timestamp := now,
                    precio_breakout := datos.precio_actual, config := config_optima },
                breakouts_detectados := FMap.set st.breakouts_detectados simbolo
                  { tipo := tipo_breakout, timestamp := now,
                    precio_breakout := datos.precio_actual } },
             none)
          | none => procesar_tail cfg st simbolo datos info_canal now
        else procesar_tail cfg st simbolo datos info_canal now

/-- `escanear_mercado`: the loop over `self.config['symbols']`, threading the
state and collecting the emitted signals. -/
def escanear_mercado (cfg : Config) (inputs : Symbol → CycleInput) (now : ℚ)
    (st : ScanState) : ScanState × List Senal :=
  cfg.symbols.foldl
    (fun acc simbolo =>
      let paso := procesar_simbolo cfg acc.1 simbolo (inputs simbolo) now
      (paso.1, acc.2 ++ paso.2.toList))
    (st, [])

/-- The state effect of closing one active operation in
`verificar_cierre_operaciones` (src/src/strategies/srcStrategiesBreakout_reentry_continued.py,
lines 245-250): the operation is removed, the symbol leaves
`senales_enviadas`, and the re-optimization counter (not tracked here) ticks. -/
def cerrar_operacion (st : ScanState) (simbolo : Symbol) : ScanState :=
  { st with
    operaciones_activas := FMap.borrar st.operaciones_activas simbolo,
    senales_enviadas := st.senales_enviadas.filter (fun s => s ≠ simbolo) }

/-- States reachable by the scan loop: the initial state, scan cycles, and
per-symbol operation closes. -/
inductive Alcanzable (cfg : Config) : ScanState → Prop where
  | inicial : Alcanzable cfg estadoVacio
  | escaneo (st : ScanState) (inputs : Symbol → CycleInput) (now : ℚ) :
      Alcanzable cfg st → Alcanzable cfg (escanear_mercado cfg inputs now st).1
  | cierre (st : ScanState) (simbolo : Symbol) :
      Alcanzable cfg st → Alcanzable cfg (cerrar_operacion st simbolo)

/-- The invariant of claim C8: no symbol simultaneously has a pending breakout
and an active operation. -/
def SinDoble (st : ScanState) : Prop :=
  ∀ s : Symbol, (st.operaciones_activas s).isSome → st.esperando_reentry s = none

/-! ## Persistence model (guardar_estado / cargar_estado)

`datetime` values are embedded as field records; `isoformat` and
`fromisoformat` are embedded at the character level, following CPython's
behavior on `isoformat` output: `YYYY-MM-DDTHH:MM:SS` plus `.ffffff` exactly
when the microsecond field is nonzero. -/

/-- A `datetime.datetime` value (naive, as the bot uses `datetime.now()`). -/
structure DateTime where
  year : ℕ
  month : ℕ
  day : ℕ
  hour : ℕ
  minute : ℕ
  second : ℕ
  microsecond : ℕ
deriving DecidableEq, Repr

/-- Field bounds under which the fixed-width ISO rendering is faithful; real
`datetime` values satisfy strictly tighter bounds. -/
def DateTime.Valid (d : DateTime) : Prop :=
  d.year < 10000 ∧ d.month < 100 ∧ d.day < 100 ∧ d.hour < 100 ∧
  d.minute < 100 ∧ d.second < 100 ∧ d.microsecond < 1000000

instance (d : DateTime) : Decidable d.Valid := by
  unfold DateTime.Valid
  infer_instance

/-- The decimal digit character for `n < 10`. -/
def digitChar (n : ℕ) : Char := Char.ofNat (48 + n)

/-- Reads a decimal digit character back; fails on anything else. -/
def digitVal (c : Char) : Option ℕ :=
  if 48 ≤ c.toNat ∧ c.toNat ≤ 57 then some (c.toNat - 48) else none

/-- Zero-padded 2-digit rendering. -/
def pad2 (n : ℕ) : List Char := [digitChar (n / 10), digitChar (n % 10)]

/-- Zero-padded 4-digit rendering. -/
def pad4 (n : ℕ) : List Char :=
  [digitChar (n / 1000), digitChar (n / 100 % 10), digitChar (n / 10 % 10), digitChar (n % 10)]

/-- Zero-padded 6-digit rendering. -/
def pad6 (n : ℕ) : List Char :=
  [digitChar (n / 100000), digitChar (n / 10000 % 10), digitChar (n / 1000 % 10),
   digitChar (n / 100 % 10), digitChar (n / 10 % 10), digitChar (n % 10)]

/-- `datetime.isoformat()`: `YYYY-MM-DDTHH:MM:SS[.ffffff]`. -/
def DateTime.isoformat (d : DateTime) : List Char :=
  pad4 d.year ++ '-' :: (pad2 d.month ++ '-' :: (pad2 d.day ++ 'T' ::
    (pad2 d.hour ++ ':' :: (pad2 d.minute ++ ':' ::
      (pad2 d.second ++ (if d.microsecond = 0 then [] else '.' :: pad6 d.microsecond))))))

/-- Reads two digit characters as a number, returning the rest of the input. -/
def parse2 : List Char → Option (ℕ × List Char)
  | a :: b :: rest =>
    match digitVal a, digitVal b with
    | some x, some y => some (10 * x + y, rest)
    | _, _ => none
  | _ => none

/-- Reads four digit characters as a number. -/
def parse4 (s : List Char) : Option (ℕ × List Char) :=
  match parse2 s with
  | none => none
  | some (hi, r) =>
    match parse2 r with
    | none => none
    | some (lo, r2) => some (100 * hi + lo, r2)

/-- Reads six digit characters as a number. -/
def parse6 (s : List Char) : Option (ℕ × List Char) :=
  match parse2 s with
  | none => none
  | some (a, r) =>
    match parse2 r with
    | none => none
    | some (b, r2) =>
      match parse2 r2 with
      | none => none
      | some (c, r3) => some (10000 * a + 100 * b + c, r3)

/-- Consumes one expected separator character. -/
def expectChar (c : Char) : List Char → Option (List Char)
  | x :: rest => if x = c then some rest else none
  | [] => none

/-- `datetime.fromisoformat` on the grammar `isoformat` produces; any other
input (as stored in a corrupt state file) fails, which in Python raises
`ValueError`. -/
def fromisoformat (s : List Char) : Option DateTime :=
  match parse4 s with
  | none => none
  | some (y, r1) =>
  match expectChar '-' r1 with
  | none => none
  | some r2 =>
  match parse2 r2 with
  | none => none
  | some (mo, r3) =>
  match expectChar '-' r3 with
  | none => none
  | some r4 =>
  match parse2 r4 with
  | none => none
  | some (da, r5) =>
  match expectChar 'T' r5 with
  | none => none
  | some r6 =>
  match parse2 r6 with
  | none => none
  | some (h, r7) =>
  match expectChar ':' r7 with
  | none => none
  | some r8 =>
  match parse2 r8 with
  | none => none
  | some (mi, r9) =>
  match expectChar ':' r9 with
  | none => none
  | some r10 =>
  match parse2 r10 with
  | none => none
  | some (se, r11) =>
    match r11 with
    | [] => some ⟨y, mo, da, h, mi, se, 0⟩
    | c :: r12 =>
      if c = '.' then
        match parse6 r12 with
        | some (us, []) => some ⟨y, mo, da, h, mi, se, us⟩
        | _ => none
      else none

/-- JSON-serializable payloads that the state store passes through verbatim
(the values of `config_optima_por_simbolo`, `operaciones_activas` and the
`config` field of a pending breakout). -/
inductive JVal where
  | num (q : ℚ)
  | str (s : List Char)
  | boolean (b : Bool)
  | null
deriving DecidableEq, Repr

/-- An in-memory `esperando_reentry` entry of the persisted bot state. -/
structure EsperandoEntry where
  tipo : TipoBreakout
  timestamp : DateTime
  precio_breakout : ℚ
  config : JVal
deriving DecidableEq, Repr

/-- An in-memory `breakouts_detectados` entry of the persisted bot state. -/
structure BreakoutDetEntry where
  tipo : TipoBreakout
  timestamp : DateTime
  precio_breakout : ℚ
deriving DecidableEq, Repr

/-- The bot fields that `guardar_estado` serializes, with dicts as ordered
association lists (Python dicts preserve insertion order) and the
`senales_enviadas` set by its element list. -/
structure BotState where
  ultima_optimizacion : DateTime
  operaciones_desde_optimizacion : ℤ
  total_operaciones : ℤ
  breakout_history : List (Symbol × DateTime)
  config_optima_por_simbolo : List (Symbol × JVal)
  ultima_busqueda_config : List (Symbol × DateTime)
  operaciones_activas : List (Symbol × JVal)
  senales_enviadas : List Symbol
  esperando_reentry : List (Symbol × EsperandoEntry)
  breakouts_detectados : List (Symbol × BreakoutDetEntry)
deriving DecidableEq, Repr

/-- A serialized `esperando_reentry` entry (timestamp as an ISO string). -/
structure EsperandoDoc where
  tipo : TipoBreakout
  timestamp : List Char
  precio_breakout : ℚ
  config : JVal
deriving DecidableEq, Repr

/-- A serialized `breakouts_detectados` entry. -/
structure BreakoutDetDoc where
  tipo : TipoBreakout
  timestamp : List Char
  precio_breakout : ℚ
deriving DecidableEq, Repr

/-- The JSON document in the state file.  `Option` models key presence: a
document written by `guardar_estado` has every key, but `cargar_estado` also
accepts files with keys missing. -/
structure EstadoDoc where
  ultima_optimizacion : Option (List Char)
  operaciones_desde_optimizacion : Option ℤ
  total_operaciones : Option ℤ
  breakout_history : Option (List (Symbol × List Char))
  config_optima_por_simbolo : Option (List (Symbol × JVal))
  ultima_busqueda_config : Option (List (Symbol × List Char))
  operaciones_activas : Option (List (Symbol × JVal))
  senales_enviadas : Option (List Symbol)
  esperando_reentry : Option (List (Symbol × EsperandoDoc))
  breakouts_detectados : Option (List (Symbol × BreakoutDetDoc))
  timestamp_guardado : Option (List Char)
deriving DecidableEq, Repr

/-- `TradingBot.guardar_estado` (src/src/strategies/breakout_reentry_strategy.py,
lines 124-158): every field is written; datetimes via `isoformat`; the
`esperando_reentry` / `breakouts_detectados` entries are rebuilt keeping
exactly the listed keys. -/
def TradingBot.guardar_estado (st : BotState) (now : DateTime) : EstadoDoc where
  ultima_optimizacion := some st.ultima_optimizacion.isoformat
  operaciones_desde_optimizacion := some st.operaciones_desde_optimizacion
  total_operaciones := some st.total_operaciones
  breakout_history := some (st.breakout_history.map (fun p => (p.1, p.2.isoformat)))
  config_optima_por_simbolo := some st.config_optima_por_simbolo
  ultima_busqueda_config := some (st.ultima_busqueda_config.map (fun p => (p.1, p.2.isoformat)))
  operaciones_activas := some st.operaciones_activas
  senales_enviadas := some st.senales_enviadas
  esperando_reentry := some (st.esperando_reentry.map (fun p =>
    (p.1, { tipo := p.2.tipo, timestamp := p.2.timestamp.isoformat,
            precio_breakout := p.2.precio_breakout, config := p.2.config })))
  breakouts_detectados := some (st.breakouts_detectados.map (fun p =>
    (p.1, { tipo := p.2.tipo, timestamp := p.2.timestamp.isoformat,
            precio_breakout := p.2.precio_breakout })))
  timestamp_guardado := some now.isoformat

/-- Parses every timestamp of a `{symbol: iso-string}` dict if the key is
present; `none` models the `ValueError` raised on the first malformed entry. -/
def parseFechas (d : Option (List (Symbol × List Char))) :
    Option (Option (List (Symbol × DateTime))) :=
  match d with
  | none => some none
  | some entries =>
    (entries.mapM (fun p => (fromisoformat p.2).map (fun t => (p.1, t)))).map some

/-- Parses the timestamps of the serialized `esperando_reentry` dict. -/
def parseEsperando (d : Option (List (Symbol × EsperandoDoc))) :
    Option (Option (List (Symbol × EsperandoEntry))) :=
  match d with
  | none => some none
  | some entries =>
    (entries.mapM (fun p => (fromisoformat p.2.timestamp).map (fun t =>
      (p.1, ({ tipo := p.2.tipo, timestamp := t, precio_breakout := p.2.precio_breakout,
               config := p.2.config } : EsperandoEntry))))).map some

/-- Parses the timestamps of the serialized `breakouts_detectados` dict. -/
def parseBreakoutsDet (d : Option (List (Symbol × BreakoutDetDoc))) :
    Option (Option (List (Symbol × BreakoutDetEntry))) :=
  match d with
  | none => some none
  | some entries =>
    (entries.mapM (fun p => (fromisoformat p.2.timestamp).map (fun t =>
      (p.1, ({ tipo := p.2.tipo, timestamp := t,
               precio_breakout := p.2.precio_breakout } : BreakoutDetEntry))))).map some

/-- `TradingBot.cargar_estado` (src/src/strategies/breakout_reentry_strategy.py,
lines 80-123).  `file` is `none` when the state file does not exist (the
method then does nothing).  The whole body runs under one `try`: a parse
failure aborts, keeping whatever `self` assignments already executed — the
`esperando_reentry` assignment (line 100) happens before the
`breakouts_detectados` parse, which happens before the bulk assignments
(lines 108-115).  `now` models the `datetime.now()` default used when the
`ultima_optimizacion` key is absent. -/
def TradingBot.cargar_estado (self0 : BotState) (file : Option EstadoDoc)
    (now : DateTime) : BotState :=
  match file with
  | none => self0
  | some doc =>
    match (match doc.ultima_optimizacion with
           | none => some none
           | some s => (fromisoformat s).map some : Option (Option DateTime)) with
    | none => self0
    | some uoP =>
    match parseFechas doc.ultima_busqueda_config with
    | none => self0
    | some ubcP =>
    match parseFechas doc.breakout_history with
    | none => self0
    | some bhP =>
    match parseEsperando doc.esperando_reentry with
    | none => self0
    | some erP =>
      let self1 :=
        match erP with
        | none => self0
        | some er => { self0 with esperando_reentry := er }
      match parseBreakoutsDet doc.breakouts_detectados with
      | none => self1
      | some bdP =>
        let self2 :=
          match bdP with
          | none => self1
          | some bd => { self1 with breakouts_detectados := bd }
        { self2 with
          ultima_optimizacion := uoP.getD now,
          operaciones_desde_optimizacion := doc.operaciones_desde_optimizacion.getD 0,
          total_operaciones := doc.total_operaciones.getD 0,
          breakout_history := bhP.getD [],
          config_optima_por_simbolo := doc.config_optima_por_simbolo.getD [],
          ultima_busqueda_config := ubcP.getD [],
          operaciones_activas := doc.operaciones_activas.getD [],
          senales_enviadas := doc.senales_enviadas.getD [] }

/-- Holds when `TradingBot.cargar_estado` hits a parse failure before its
first `self` assignment (a malformed timestamp in `ultima_optimizacion`,
`ultima_busqueda_config`, `breakout_history` or `esperando_reentry`). -/
def falloTemprano (doc : EstadoDoc) : Prop :=
  (∃ s : List Char, doc.ultima_optimizacion = some s ∧ fromisoformat s = none) ∨
  parseFechas doc.ultima_busqueda_config = none ∨
  parseFechas doc.breakout_history = none ∨
  parseEsperando doc.esperando_reentry = none

/-- The parsed state dict that `StateManager.cargar_estado` returns: the
file's keys (still optional) with datetimes parsed in place. -/
structure SMEstado where
  ultima_optimizacion : Option DateTime
  operaciones_desde_optimizacion : Option ℤ
  total_operaciones : Option ℤ
  breakout_history : Option (List (Symbol × DateTime))
  config_optima_por_simbolo : Option (List (Symbol × JVal))
  ultima_busqueda_config : Option (List (Symbol × DateTime))
  operaciones_activas : Option (List (Symbol × JVal))
  senales_enviadas : Option (List Symbol)
  esperando_reentry : Option (List (Symbol × EsperandoEntry))
  breakouts_detectados : Option (List (Symbol × BreakoutDetEntry))
deriving DecidableEq, Repr

/-- `StateManager._crear_estado_inicial` (src/src/utils/srcUtilsState_manager.py,
lines 123-140): all maps empty, counters zero, `ultima_optimizacion` set to
`datetime.now()`. -/
def estadoInicial (now : DateTime) : SMEstado where
  ultima_optimizacion := some now
  operaciones_desde_optimizacion := some 0
  total_operaciones := some 0
  breakout_history := some []
  config_optima_por_simbolo := some []
  ultima_busqueda_config := some []
  operaciones_activas := some []
  senales_enviadas := some []
  esperando_reentry := some []
  breakouts_detectados := some []

/-- `StateManager.cargar_estado` (src/src/utils/srcUtilsState_manager.py,
lines 29-66): parses the file under one `try` and returns the parsed dict;
on a missing file or any failure it returns `_crear_estado_inicial()`.  No
partial result can escape because nothing is assigned before the `return`. -/
def StateManager.cargar_estado (file : Option EstadoDoc) (now : DateTime) : SMEstado :=
  match file with
  | none => estadoInicial now
  | some doc =>
    match (match doc.ultima_optimizacion with
           | none => some none
           | some s => (fromisoformat s).map some : Option (Option DateTime)) with
    | none => estadoInicial now
    | some uoP =>
    match parseFechas doc.ultima_busqueda_config with
    | none => estadoInicial now
    | some ubcP =>
    match parseFechas doc.breakout_history with
    | none => estadoInicial now
    | some bhP =>
    match parseEsperando doc.esperando_reentry with
    | none => estadoInicial now
    | some erP =>
    match parseBreakoutsDet doc.breakouts_detectados with
    | none => estadoInicial now
    | some bdP =>
      { ultima_optimizacion := uoP,
        operaciones_desde_optimizacion := doc.operaciones_desde_optimizacion,
        total_operaciones := doc.total_operaciones,
        breakout_history := bhP,
        config_optima_por_simbolo := doc.config_optima_por_simbolo,
        ultima_busqueda_config := ubcP,
        operaciones_activas := doc.operaciones_activas,
        senales_enviadas := doc.senales_enviadas,
        esperando_reentry := erP,
        breakouts_detectados := bdP }

/-- All timestamps of a bot state lie in the rendering range. -/
def BotState.Valido (st : BotState) : Prop :=
  st.ultima_optimizacion.Valid ∧
  (∀ p ∈ st.breakout_history, DateTime.Valid p.2) ∧
  (∀ p ∈ st.ultima_busqueda_config, DateTime.Valid p.2) ∧
  (∀ p ∈ st.esperando_reentry, DateTime.Valid p.2.timestamp) ∧
  (∀ p ∈ st.breakouts_detectados, DateTime.Valid p.2.timestamp)

/-! ## Channel analyzer (calcular_canal_regresion_config and helpers) -/

/-- The raw market data dict for the analyzer. -/
structure DatosMercadoFull where
  tiempos : List ℚ
  maximos : List ℚ
  minimos : List ℚ
  cierres : List ℚ
  precio_actual : ℚ
deriving DecidableEq, Repr

/-- All price lists of a market-data dict have the same length. -/
def DatosMercadoFull.Consistente (dm : DatosMercadoFull) : Prop :=
  dm.tiempos.length = dm.maximos.length ∧ dm.minimos.length = dm.maximos.length ∧
  dm.cierres.length = dm.maximos.length

/-- Python slice `lst[-cp:]` with `cp` a non-negative int: for `cp = 0` the
index `-0` is `0`, so the whole list is taken; otherwise the last
`min(cp, len)` elements. -/
def sliceUlt (cp : ℕ) (l : List ℚ) : List ℚ :=
  if cp = 0 then l else l.drop (l.length - cp)

/-- Maximum of a list, with the head as the seed (total stand-in for Python's
`max` on the nonempty lists it is applied to). -/
def maxD (l : List ℚ) : ℚ := l.foldl max (l.headD 0)

/-- Minimum of a list, as `maxD`. -/
def minD (l : List ℚ) : ℚ := l.foldl min (l.headD 0)

/-- `calcular_regresion_lineal` (src/src/strategies/breakout_reentry_strategy.py,
lines 335-352): ordinary least squares; a zero denominator is guarded by
forcing the slope to `0`, and `None` is returned only for mismatched lengths
or empty input. -/
def calcular_regresion_lineal (x y : List ℚ) : Option (ℚ × ℚ) :=
  if x.length ≠ y.length ∨ x.length = 0 then none
  else
    let n : ℚ := x.length
    let sum_x := x.sum
    let sum_y := y.sum
    let sum_xy := (List.zipWith (· * ·) x y).sum
    let sum_x2 := (x.map (fun a => a * a)).sum
    let denom := n * sum_x2 - sum_x * sum_x
    let pendiente := if denom = 0 then 0 else (n * sum_xy - sum_x * sum_y) / denom
    let intercepto := (sum_y - pendiente * sum_x) / n
    some (pendiente, intercepto)

/-- `calcular_pearson_y_angulo` (lines 354-375).  `sqrtF` stands for
`math.sqrt`, `atanDegF` for `math.degrees(math.atan(·))`. -/
def calcular_pearson_y_angulo (sqrtF atanDegF : ℚ → ℚ) (x y : List ℚ) : ℚ × ℚ :=
  if x.length ≠ y.length ∨ x.length < 2 then (0, 0)
  else
    let n : ℚ := x.length
    let sum_x := x.sum
    let sum_y := y.sum
    let sum_xy := (List.zipWith (· * ·) x y).sum
    let sum_x2 := (x.map (fun a => a * a)).sum
    let sum_y2 := (y.map (fun a => a * a)).sum
    let numerador := n * sum_xy - sum_x * sum_y
    let denominador := sqrtF ((n * sum_x2 - sum_x * sum_x) * (n * sum_y2 - sum_y * sum_y))
    if denominador = 0 then (0, 0)
    else
      let pearson := numerador / denominador
      let denom_pend := n * sum_x2 - sum_x * sum_x
      let pendiente := if denom_pend ≠ 0 then (n * sum_xy - sum_x * sum_y) / denom_pend else 0
      let rango := maxD y - minD y
      let angulo := atanDegF (if rango ≠ 0 then pendiente * (x.length : ℚ) / rango else 0)
      (pearson, angulo)

/-- `clasificar_fuerza_tendencia` (lines 377-389). -/
def clasificar_fuerza_tendencia (angulo_grados : ℚ) : String × ℕ :=
  let angulo_abs := pyabs angulo_grados
  if angulo_abs < 3 then ("💔 Muy Débil", 1)
  else if angulo_abs < 13 then ("❤️ Débil", 2)
  else if angulo_abs < 27 then ("💛 Moderada", 3)
  else if angulo_abs < 45 then ("💚 Fuerte", 4)
  else ("💙 Muy Fuerte", 5)

/-- `determinar_direccion_tendencia` (lines 391-398). -/
def determinar_direccion_tendencia (angulo_grados : ℚ) (umbral_minimo : ℚ) : Direccion :=
  if pyabs angulo_grados < umbral_minimo then Direccion.RANGO
  else if 0 < angulo_grados then Direccion.ALCISTA
  else Direccion.BAJISTA

/-- `calcular_r2` (lines 400-410); `np.sum` of an empty array is 0, so an
empty input falls into the `ss_tot == 0` guard. -/
def calcular_r2 (y_real x : List ℚ) (pendiente intercepto : ℚ) : ℚ :=
  if y_real.length ≠ x.length then 0
  else
    let y_pred := x.map (fun t => pendiente * t + intercepto)
    let ss_res := (List.zipWith (fun a b => (a - b) ^ 2) y_real y_pred).sum
    let media := y_real.sum / (y_real.length : ℚ)
    let ss_tot := (y_real.map (fun a => (a - media) ^ 2)).sum
    if ss_tot = 0 then 0 else 1 - ss_res / ss_tot

/-- `calcular_stochastic` (lines 308-333) with the default parameters
`period=14, k_period=3, d_period=3`; runs over the full (unsliced) lists. -/
def calcular_stochastic (dm : DatosMercadoFull) : ℚ × ℚ :=
  if dm.cierres.length < 14 then (50, 50)
  else
    let k_values := ((List.range dm.cierres.length).drop 13).map (fun i =>
      let highest_high := maxD ((dm.maximos.drop (i - 13)).take 14)
      let lowest_low := minD ((dm.minimos.drop (i - 13)).take 14)
      if highest_high = lowest_low then (50 : ℚ)
      else 100 * (dm.cierres.getD i 0 - lowest_low) / (highest_high - lowest_low))
    if 3 ≤ k_values.length then
      let k_smoothed := ((List.range k_values.length).drop 2).map (fun i =>
        ((k_values.drop (i - 2)).take 3).sum / 3)
      if 3 ≤ k_smoothed.length then
        (k_smoothed.getLastD 50, ((k_smoothed.drop (k_smoothed.length - 3)).sum) / 3)
      else (50, 50)
    else (50, 50)

/-- `np.std` (population standard deviation) via the abstract square root. -/
def stdF (sqrtF : ℚ → ℚ) (l : List ℚ) : ℚ :=
  let media := l.sum / (l.length : ℚ)
  sqrtF ((l.map (fun d => (d - media) ^ 2)).sum / (l.length : ℚ))

/-- The full channel descriptor dict built by `calcular_canal_regresion_config`. -/
structure InfoCanalFull where
  resistencia : ℚ
  soporte : ℚ
  resistencia_media : ℚ
  soporte_media : ℚ
  linea_tendencia : ℚ
  pendiente_tendencia : ℚ
  precio_actual : ℚ
  ancho_canal : ℚ
  ancho_canal_porcentual : ℚ
  angulo_tendencia : ℚ
  coeficiente_pearson : ℚ
  fuerza_texto : String
  nivel_fuerza : ℕ
  direccion : Direccion
  r2_score : ℚ
  pendiente_resistencia : ℚ
  pendiente_soporte : ℚ
  stoch_k : ℚ
  stoch_d : ℚ
  num_velas : ℕ
deriving DecidableEq, Repr

/-- `calcular_canal_regresion_config` (src/src/strategies/breakout_reentry_strategy.py,
lines 248-305).  `none` is produced exactly by the explicit bar-count guard
and by a `None` regression (`not all([...])`; a `(0.0, c)` tuple is truthy in
Python, so a degenerate denominator does not trigger it). -/
def calcular_canal_regresion_config (sqrtF atanDegF : ℚ → ℚ)
    (dm : DatosMercadoFull) (candle_period : ℕ) : Option InfoCanalFull :=
  if dm.maximos.length < candle_period then none
  else
    let tiempos := sliceUlt candle_period dm.tiempos
    let maximos := sliceUlt candle_period dm.maximos
    let minimos := sliceUlt candle_period dm.minimos
    let cierres := sliceUlt candle_period dm.cierres
    let tiempos_reg : List ℚ := (List.range tiempos.length).map (fun i : ℕ => (i : ℚ))
    match calcular_regresion_lineal tiempos_reg maximos,
          calcular_regresion_lineal tiempos_reg minimos,
          calcular_regresion_lineal tiempos_reg cierres with
    | some (pendiente_max, intercepto_max), some (pendiente_min, intercepto_min),
      some (pendiente_cierre, intercepto_cierre) =>
      let tiempo_actual := tiempos_reg.getLastD 0
      let resistencia_media := pendiente_max * tiempo_actual + intercepto_max
      let soporte_media := pendiente_min * tiempo_actual + intercepto_min
      let diferencias_max := List.zipWith
        (fun t m => m - (pendiente_max * t + intercepto_max)) tiempos_reg maximos
      let diferencias_min := List.zipWith
        (fun t m => m - (pendiente_min * t + intercepto_min)) tiempos_reg minimos
      let desviacion_max := if diferencias_max = [] then 0 else stdF sqrtF diferencias_max
      let desviacion_min := if diferencias_min = [] then 0 else stdF sqrtF diferencias_min
      let resistencia_superior := resistencia_media + desviacion_max
      let soporte_inferior := soporte_media - desviacion_min
      let pa := calcular_pearson_y_angulo sqrtF atanDegF tiempos_reg cierres
      let fuerza := clasificar_fuerza_tendencia pa.2
      let direccion := determinar_direccion_tendencia pa.2 1
      let stoch := calcular_stochastic dm
      let precio_medio := (resistencia_superior + soporte_inferior) / 2
      let ancho_canal_absoluto := resistencia_superior - soporte_inferior
      some
        { resistencia := resistencia_superior
          soporte := soporte_inferior
          resistencia_media := resistencia_media
          soporte_media := soporte_media
          linea_tendencia := pendiente_cierre * tiempo_actual + intercepto_cierre
          pendiente_tendencia := pendiente_cierre
          precio_actual := dm.precio_actual
          ancho_canal := ancho_canal_absoluto
          ancho_canal_porcentual := ancho_canal_absoluto / precio_medio * 100
          angulo_tendencia := pa.2
          coeficiente_pearson := pa.1
          fuerza_texto := fuerza.1
          nivel_fuerza := fuerza.2
          direccion := direccion
          r2_score := calcular_r2 cierres tiempos_reg pendiente_cierre intercepto_cierre
          pendiente_resistencia := pendiente_max
          pendiente_soporte := pendiente_min
          stoch_k := stoch.1
          stoch_d := stoch.2
          num_velas := candle_period }
    | _, _, _ => none

/-! ## Parameter optimizer (src/src/strategies/srcStrategiesTrading_optimizer.py) -/

/-- One row of the operation ledger as loaded by `OptimizadorIA.cargar_datos`. -/
structure OpRecord where
  pnl : ℚ
  angulo : ℚ
  pearson : ℚ
  r2 : ℚ
  ancho_relativo : ℚ
  nivel_fuerza : ℤ
deriving DecidableEq, Repr

/-- `evaluar_configuracion` (lines 69-92).  `statistics.mean` is the sum over
the count; `statistics.stdev` is the sample standard deviation (via `sqrtF`);
`int(0.15 * len)` truncates (the float literal `0.15` is modelled as exactly
3/20); `entry_margin` is accepted and ignored, as in the source. -/
def evaluar_configuracion (sqrtF : ℚ → ℚ) (datos : List OpRecord)
    (trend_threshold min_strength entry_margin : ℚ) : ℚ :=
  if datos = [] then -99999
  else
    let filtradas := datos.filter (fun op =>
      decide (trend_threshold ≤ pyabs op.angulo ∧ min_strength ≤ pyabs op.angulo ∧
        2/5 ≤ pyabs op.pearson ∧ 2 ≤ op.nivel_fuerza ∧ 2/5 ≤ op.r2))
    let n := filtradas.length
    if n < max 8 (⌊(3 : ℚ)/20 * (datos.length : ℚ)⌋.toNat) then
      -10000 - (n : ℚ)
    else
      let pnls := filtradas.map (fun op => op.pnl)
      let pnl_mean := pnls.sum / (n : ℚ)
      let pnl_std := if 1 < pnls.length then
        sqrtF ((pnls.map (fun p => (p - pnl_mean) ^ 2)).sum / ((n : ℚ) - 1)) else 0
      let winrate := ((filtradas.filter (fun op => decide (0 < op.pnl))).length : ℚ) / (n : ℚ)
      let score := (pnl_mean - 1/2 * pnl_std) * winrate * sqrtF (n : ℚ)
      let ops_calidad := filtradas.filter (fun op =>
        decide (3/5 ≤ op.r2 ∧ 3 ≤ op.nivel_fuerza))
      if ops_calidad = [] then score else score * (6/5)

/-- The optimizer's result record (`mejores_param`). -/
structure MejoresParam where
  trend_threshold_degrees : ℚ
  min_trend_strength_degrees : ℚ
  entry_margin : ℚ
  score : ℚ
  evaluated_samples : ℕ
deriving DecidableEq, Repr

/-- The fixed parameter grid of `buscar_mejores_parametros` (lines 101-104),
as `itertools.product` enumerates it. -/
def parameterGrid : List (ℚ × ℚ × ℚ) :=
  ([3, 5, 8, 10, 12, 15, 18, 20, 25, 30, 35, 40] : List ℚ).flatMap (fun t =>
    ([3, 5, 8, 10, 12, 15, 18, 20, 25, 30] : List ℚ).flatMap (fun s =>
      ([5/10000, 1/1000, 15/10000, 2/1000, 25/10000, 3/1000, 4/1000, 5/1000,
        8/1000, 1/100] : List ℚ).map (fun m => (t, s, m))))

/-- One iteration of the grid-search loop of `buscar_mejores_parametros`
(lines 107-120, as evidently intended — see `buscar_mejores_parametros`):
on strict improvement record both the new best score and the parameters. -/
def pasoOptimizador (sqrtF : ℚ → ℚ) (datos : List OpRecord)
    (acc : ℚ × Option MejoresParam) (combo : ℚ × ℚ × ℚ) : ℚ × Option MejoresParam :=
  let score := evaluar_configuracion sqrtF datos combo.1 combo.2.1 combo.2.2
  if acc.1 < score then
    (score, some { trend_threshold_degrees := combo.1,
                   min_trend_strength_degrees := combo.2.1,
                   entry_margin := combo.2.2,
                   score := score,
                   evaluated_samples := datos.length })
  else acc

/-- `buscar_mejores_parametros` (lines 94-131) as evidently intended.  The
shipped source is syntactically invalid at lines 111-120 (an unterminated
string inside `mejor_score = score = {`, visibly a mangled merge of
`mejor_score = score` and `mejores_param = {...}`); this definition embeds
that minimal repair, which the function's own tail (`if mejores_param: ...`)
and the spec both document.  The best score starts at -1e9 with no
parameters selected; strict improvement updates both. -/
def buscar_mejores_parametros (sqrtF : ℚ → ℚ) (datos : List OpRecord)
    (min_samples : ℕ) : Option MejoresParam :=
  if datos = [] ∨ datos.length < min_samples then none
  else
    (parameterGrid.foldl (pasoOptimizador sqrtF datos)
      ((-(10 ^ 9 : ℚ), none) : ℚ × Option MejoresParam)).2

/-! ## Concrete inputs used by witnesses and counterexamples -/

/-- The deployed configuration values (src/src/config/srcConfigSettings.py)
restricted to one symbol. -/
def cfgEj : Config where
  symbols := ["BTCUSDT"]
  min_channel_width_percent := 4
  min_trend_strength_degrees := 16
  min_rr_ratio := 6/5

/-- A sample optimal per-symbol configuration. -/
def coEj : ConfigOptima where
  timeframe := "1m"
  num_velas := 80

/-- A statistically strong but narrow channel (width 1% < the 4% minimum)
whose price/stochastic values confirm a LONG reentry at the support. -/
def icEstrecho : InfoCanal where
  resistencia := 110
  soporte := 100
  stoch_k := 20
  stoch_d := 20
  nivel_fuerza := 3
  coeficiente_pearson := 1/2
  r2_score := 1/2
  ancho_canal_porcentual := 1
  angulo_tendencia := 20
  direccion := Direccion.ALCISTA

/-- The weak-channel variant (`strengthLevel` 1, failing the quality gate). -/
def icDebil : InfoCanal :=
  { icEstrecho with nivel_fuerza := 1, ancho_canal_porcentual := 5 }

/-- Market data sitting exactly on the support of `icEstrecho`. -/
def dmEj : DatosMercado where
  precio_actual := 100
  precio_cierre := 100

/-- A pending LONG breakout registered at time 0. -/
def biLargo : EsperandoInfoQ where
  tipo := TipoBreakout.BREAKOUT_LONG
  timestamp := 0
  precio_breakout := 99
  config := coEj

/-- A scan state whose only content is the pending breakout `biLargo`. -/
def stPendiente : ScanState :=
  { estadoVacio with
    esperando_reentry := FMap.set FMap.vacio "BTCUSDT" biLargo,
    breakouts_detectados := FMap.set FMap.vacio "BTCUSDT"
      { tipo := TipoBreakout.BREAKOUT_LONG, timestamp := 0, precio_breakout := 99 } }

/-- The cycle input pairing `coEj`, `dmEj` and `icEstrecho`. -/
def inpEstrecho : CycleInput where
  config_optima := some coEj
  datos_mercado := some dmEj
  info_canal := some icEstrecho

/-- The cycle input with the weak channel `icDebil`. -/
def inpDebil : CycleInput where
  config_optima := some coEj
  datos_mercado := some dmEj
  info_canal := some icDebil

/-- A channel for the SHORT risk-level edge case (`resistencia` 100,
`soporte` 50). -/
def canalCorto : InfoCanal where
  resistencia := 100
  soporte := 50
  stoch_k := 50
  stoch_d := 50
  nivel_fuerza := 2
  coeficiente_pearson := 1
  r2_score := 1
  ancho_canal_porcentual := 10
  angulo_tendencia := 20
  direccion := Direccion.BAJISTA

/-- Market data with a single bar (so the regression index has zero
variance). -/
def dmUno : DatosMercadoFull where
  tiempos := [0]
  maximos := [10]
  minimos := [5]
  cierres := [7]
  precio_actual := 7

/-- Timestamps used by the persistence examples. -/
def dtEj1 : DateTime := ⟨2024, 5, 17, 9, 30, 15, 0⟩

/-- A timestamp with a nonzero microsecond field. -/
def dtEj2 : DateTime := ⟨2025, 12, 3, 23, 59, 1, 250000⟩

/-- A nontrivial persisted bot state for the round-trip witness. -/
def stBotEj : BotState where
  ultima_optimizacion := dtEj1
  operaciones_desde_optimizacion := 3
  total_operaciones := 7
  breakout_history := [("BTCUSDT", dtEj2)]
  config_optima_por_simbolo := [("BTCUSDT", JVal.num (5/2))]
  ultima_busqueda_config := [("ETHUSDT", dtEj1)]
  operaciones_activas := [("ETHUSDT", JVal.boolean true)]
  senales_enviadas := ["ETHUSDT"]
  esperando_reentry :=
    [("BTCUSDT", ⟨TipoBreakout.BREAKOUT_LONG, dtEj2, 100, JVal.null⟩)]
  breakouts_detectados :=
    [("BTCUSDT", ⟨TipoBreakout.BREAKOUT_SHORT, dtEj1, 99⟩)]

/-- The freshly initialized bot fields (`TradingBot.__init__` before
`cargar_estado`). -/
def botInicial (now : DateTime) : BotState where
  ultima_optimizacion := now
  operaciones_desde_optimizacion := 0
  total_operaciones := 0
  breakout_history := []
  config_optima_por_simbolo := []
  ultima_busqueda_config := []
  operaciones_activas := []
  senales_enviadas := []
  esperando_reentry := []
  breakouts_detectados := []

/-- A state file whose `esperando_reentry` parses but whose
`breakouts_detectados` holds a malformed timestamp. -/
def docParcial : EstadoDoc where
  ultima_optimizacion := none
  operaciones_desde_optimizacion := none
  total_operaciones := none
  breakout_history := none
  config_optima_por_simbolo := none
  ultima_busqueda_config := none
  operaciones_activas := none
  senales_enviadas := none
  esperando_reentry :=
    some [("BTCUSDT", ⟨TipoBreakout.BREAKOUT_LONG, dtEj1.isoformat, 100, JVal.null⟩)]
  breakouts_detectados := some [("ETHUSDT", ⟨TipoBreakout.BREAKOUT_LONG, ['z'], 0⟩)]
  timestamp_guardado := none

/-- A state file whose `ultima_optimizacion` timestamp is malformed. -/
def docMalo : EstadoDoc :=
  { docParcial with
    ultima_optimizacion := some ['b', 'a', 'd'],
    esperando_reentry := none,
    breakouts_detectados := none }

/-- A single ledger record rejected by every grid combination
(`|angulo| = 0 < 3`). -/
def opEj : OpRecord where
  pnl := 1
  angulo := 0
  pearson := 1
  r2 := 1
  ancho_relativo := 1
  nivel_fuerza := 2

/-- The optimizer result on the one-record ledger `[opEj]`: every combination
filters it out, so every score is `-10000 - 0` and the first grid combination
is kept. -/
def paramEj : MejoresParam where
  trend_threshold_degrees := 3
  min_trend_strength_degrees := 3
  entry_margin := 5/10000
  score := -10000
  evaluated_samples := 1

end CocoBot

namespace CocoBot

/-! ## Helper lemmas about the detector state transformer -/

theorem FMap.borrar_mismo {α : Type} (d : FMap α) (k : Symbol) :
    FMap.borrar d k k = none := by
  simp [FMap.borrar]

theorem FMap.borrar_otro {α : Type} (d : FMap α) (k s : Symbol) (h : s ≠ k) :
    FMap.borrar d k s = d s := by
  simp [FMap.borrar, h]

theorem FMap.set_mismo {α : Type} (d : FMap α) (k : Symbol) (v : α) :
    FMap.set d k v k = some v := by
  simp [FMap.set]

theorem FMap.set_otro {α : Type} (d : FMap α) (k s : Symbol) (v : α) (h : s ≠ k) :
    FMap.set d k v s = d s := by
  simp [FMap.set, h]

/-- `detectar_reentry` only ever returns the state unchanged, with the
symbol's `breakouts_detectados` entry deleted, or with both that entry and
the symbol's `esperando_reentry` entry deleted. -/
theorem detectar_reentry_cases (st : ScanState) (s : Symbol) (ic : InfoCanal)
    (dm : DatosMercado) (now : ℚ) :
    (detectar_reentry st s ic dm now).2 = st ∨
    (detectar_reentry st s ic dm now).2 =
      { st with breakouts_detectados := FMap.borrar st.breakouts_detectados s } ∨
    (detectar_reentry st s ic dm now).2 =
      { st with esperando_reentry := FMap.borrar st.esperando_reentry s,
                breakouts_detectados := FMap.borrar st.breakouts_detectados s } := by
  unfold detectar_reentry
  cases h : st.esperando_reentry s with
  | none => exact Or.inl rfl
  | some bi =>
    dsimp only
    split
    · exact Or.inr (Or.inr rfl)
    · cases bi.tipo <;> dsimp only <;> (repeat' split) <;>
        simp

/-- When the symbol has no pending entry, `detectar_reentry` is a no-op. -/
theorem detectar_reentry_sin_entrada (st : ScanState) (s : Symbol) (ic : InfoCanal)
    (dm : DatosMercado) (now : ℚ) (h : st.esperando_reentry s = none) :
    detectar_reentry st s ic dm now = (none, st) := by
  unfold detectar_reentry
  rw [h]

/-- When the symbol has no pending entry, the reentry tail of the scan loop
does nothing. -/
theorem procesar_tail_sin_entrada (cfg : Config) (st : ScanState) (s : Symbol)
    (dm : DatosMercado) (ic : InfoCanal) (now : ℚ)
    (h : st.esperando_reentry s = none) :
    procesar_tail cfg st s dm ic now = (st, none) := by
  unfold procesar_tail
  rw [detectar_reentry_sin_entrada st s ic dm now h]

/-- C10: whenever `detectar_reentry` resolves a symbol's wait — by the
30-minute timeout (which deletes the `esperando_reentry` entry) or by
confirming a LONG/SHORT reentry — it also deletes that symbol's
`breakouts_detectados` entry, ending the 25-minute breakout-suppression
window at resolution; on confirmation the `esperando_reentry` entry is left
in place for the caller, and other symbols' suppression entries are
untouched. -/
theorem C10_resolucion_limpia_breakouts (st : ScanState) (simbolo : Symbol)
    (ic : InfoCanal) (dm : DatosMercado) (now : ℚ) (bi : EsperandoInfoQ)
    (h : st.esperando_reentry simbolo = some bi) :
    (30 < (now - bi.timestamp) / 60 →
      (detectar_reentry st simbolo ic dm now).1 = none ∧
      (detectar_reentry st simbolo ic dm now).2.esperando_reentry simbolo = none ∧
      (detectar_reentry st simbolo ic dm now).2.breakouts_detectados simbolo = none) ∧
    (∀ op : TipoOperacion, (detectar_reentry st simbolo ic dm now).1 = some op →
      (detectar_reentry st simbolo ic dm now).2.breakouts_detectados simbolo = none ∧
      (detectar_reentry st simbolo ic dm now).2.esperando_reentry = st.esperando_reentry) ∧
    (∀ t : Symbol, t ≠ simbolo →
      (detectar_reentry st simbolo ic dm now).2.breakouts_detectados t =
        st.breakouts_detectados t) := by
  unfold detectar_reentry
  rw [h]
  dsimp only
  refine ⟨?_, ?_, ?_⟩
  · intro ht
    rw [if_pos ht]
    exact ⟨rfl, FMap.borrar_mismo _ _, FMap.borrar_mismo _ _⟩
  · intro op hop
    by_cases ht : 30 < (now - bi.timestamp) / 60
    · rw [if_pos ht] at hop
      exact absurd hop (by simp)
    · rw [if_neg ht] at hop ⊢
      cases htipo : bi.tipo <;> dsimp only at hop ⊢ <;>
        (repeat' split at hop) <;>
        simp_all [FMap.borrar_mismo]
  · intro t hts
    by_cases ht : 30 < (now - bi.timestamp) / 60
    · rw [if_pos ht]
      exact FMap.borrar_otro _ _ _ hts
    · rw [if_neg ht]
      cases htipo : bi.tipo <;> dsimp only <;> (repeat' split) <;>
        simp [FMap.borrar_otro _ _ _ hts]

/-- C1: a per-symbol scan step can emit a trade signal only if the symbol
already had a pending-breakout entry in `esperando_reentry` when the step
began; moreover, for a symbol without such an entry the step never changes
its active-operation slot, so the detector never moves a symbol from IDLE
directly to IN_POSITION — in particular, the step that registers a breakout
itself emits no signal. -/
theorem C1_senal_requiere_breakout_previo (cfg : Config) (st : ScanState)
    (simbolo : Symbol) (inp : CycleInput) (now : ℚ)
    (h : st.esperando_reentry simbolo = none) :
    (procesar_simbolo cfg st simbolo inp now).2 = none ∧
    (procesar_simbolo cfg st simbolo inp now).1.operaciones_activas simbolo =
      st.operaciones_activas simbolo := by
  obtain ⟨co, dm, ic⟩ := inp
  unfold procesar_simbolo
  dsimp only
  by_cases h1 : FMap.tiene st.operaciones_activas simbolo
  · rw [if_pos h1]
    exact ⟨rfl, rfl⟩
  · rw [if_neg h1]
    cases co with
    | none => exact ⟨rfl, rfl⟩
    | some co =>
      cases dm with
      | none => exact ⟨rfl, rfl⟩
      | some dm =>
        cases ic with
        | none => exact ⟨rfl, rfl⟩
        | some ic =>
          dsimp only
          split
          · exact ⟨rfl, rfl⟩
          · have hesp : ¬ FMap.tiene st.esperando_reentry simbolo := by
              simp [FMap.tiene, h]
            rw [if_pos hesp]
            split
            · exact ⟨rfl, rfl⟩
            · rw [procesar_tail_sin_entrada cfg st simbolo dm ic now h]
              exact ⟨rfl, rfl⟩

/-- C1 witness: on the empty initial state no step emits a signal. -/
theorem C1_senal_requiere_breakout_previo_witness :
    (procesar_simbolo cfgEj estadoVacio "BTCUSDT" ⟨none, none, none⟩ 0).2 = none ∧
    (procesar_simbolo cfgEj estadoVacio "BTCUSDT" ⟨none, none, none⟩ 0).1.operaciones_activas
      "BTCUSDT" = estadoVacio.operaciones_activas "BTCUSDT" :=
  C1_senal_requiere_breakout_previo cfgEj estadoVacio "BTCUSDT" ⟨none, none, none⟩ 0 rfl

/-- C10 witness: at minute 31 the timeout path clears both maps for the
symbol. -/
theorem C10_resolucion_limpia_breakouts_witness :
    (detectar_reentry stPendiente "BTCUSDT" icEstrecho dmEj 1861).1 = none ∧
    (detectar_reentry stPendiente "BTCUSDT" icEstrecho dmEj 1861).2.esperando_reentry
      "BTCUSDT" = none ∧
    (detectar_reentry stPendiente "BTCUSDT" icEstrecho dmEj 1861).2.breakouts_detectados
      "BTCUSDT" = none :=
  (C10_resolucion_limpia_breakouts stPendiente "BTCUSDT" icEstrecho dmEj 1861 biLargo
    rfl).1 (by norm_num [biLargo])

/-- The timeout branch of `detectar_reentry`, in closed form. -/
theorem detectar_reentry_timeout (st : ScanState) (s : Symbol) (ic : InfoCanal)
    (dm : DatosMercado) (now : ℚ) (bi : EsperandoInfoQ)
    (h : st.esperando_reentry s = some bi) (ht : 30 < (now - bi.timestamp) / 60) :
    detectar_reentry st s ic dm now =
      (none, { st with esperando_reentry := FMap.borrar st.esperando_reentry s,
                       breakouts_detectados := FMap.borrar st.breakouts_detectados s }) := by
  unfold detectar_reentry
  rw [h]
  dsimp only
  rw [if_pos ht]

/-- The reentry tail on a timed-out entry deletes it and emits nothing. -/
theorem procesar_tail_timeout (cfg : Config) (st : ScanState) (s : Symbol)
    (dm : DatosMercado) (ic : InfoCanal) (now : ℚ) (bi : EsperandoInfoQ)
    (h : st.esperando_reentry s = some bi) (ht : 30 < (now - bi.timestamp) / 60) :
    procesar_tail cfg st s dm ic now =
      ({ st with esperando_reentry := FMap.borrar st.esperando_reentry s,
                 breakouts_detectados := FMap.borrar st.breakouts_detectados s }, none) := by
  unfold procesar_tail
  rw [detectar_reentry_timeout st s ic dm now bi h ht]

/-- C4 (amended): for a symbol in PENDING_REENTRY whose breakout lies more
than 30 minutes in the past, a scan cycle that reaches reentry detection —
no active operation and the three data-quality filters passing — deletes the
pending entry (and the breakout-suppression entry) and emits no signal,
regardless of the prices, stochastic values and channel geometry of the
cycle. -/
theorem C4_timeout_elimina_espera (cfg : Config) (st : ScanState) (simbolo : Symbol)
    (co : ConfigOptima) (dm : DatosMercado) (ic : InfoCanal) (now : ℚ) (bi : EsperandoInfoQ)
    (hact : st.operaciones_activas simbolo = none)
    (hesp : st.esperando_reentry simbolo = some bi)
    (ht : 30 < (now - bi.timestamp) / 60)
    (hfil : ¬(ic.nivel_fuerza < 2 ∨ pyabs ic.coeficiente_pearson < 2/5 ∨ ic.r2_score < 2/5)) :
    procesar_simbolo cfg st simbolo ⟨some co, some dm, some ic⟩ now =
      ({ st with esperando_reentry := FMap.borrar st.esperando_reentry simbolo,
                 breakouts_detectados := FMap.borrar st.breakouts_detectados simbolo },
       none) := by
  unfold procesar_simbolo
  dsimp only
  have h1 : ¬ FMap.tiene st.operaciones_activas simbolo := by
    simp [FMap.tiene, hact]
  rw [if_neg h1, if_neg hfil]
  have h2 : ¬ ¬ FMap.tiene st.esperando_reentry simbolo := by
    simp [FMap.tiene, hesp]
  rw [if_neg h2]
  exact procesar_tail_timeout cfg st simbolo dm ic now bi hesp ht

/-- C4 witness: the timed-out entry of `stPendiente` is deleted by the cycle
with the strong channel `icEstrecho`. -/
theorem C4_timeout_elimina_espera_witness :
    procesar_simbolo cfgEj stPendiente "BTCUSDT" ⟨some coEj, some dmEj, some icEstrecho⟩ 1861 =
      ({ stPendiente with
          esperando_reentry := FMap.borrar stPendiente.esperando_reentry "BTCUSDT",
          breakouts_detectados := FMap.borrar stPendiente.breakouts_detectados "BTCUSDT" },
       none) :=
  C4_timeout_elimina_espera cfgEj stPendiente "BTCUSDT" coEj dmEj icEstrecho 1861 biLargo
    rfl rfl (by norm_num [biLargo]) (by norm_num [icEstrecho, pyabs])

/-- The data-quality gate of the scan loop: any failing statistical filter
rejects the cycle with the state untouched and no signal. -/
theorem procesar_simbolo_filtros (cfg : Config) (st : ScanState) (simbolo : Symbol)
    (co : ConfigOptima) (dm : DatosMercado) (ic : InfoCanal) (now : ℚ)
    (hfil : ic.nivel_fuerza < 2 ∨ pyabs ic.coeficiente_pearson < 2/5 ∨ ic.r2_score < 2/5) :
    procesar_simbolo cfg st simbolo ⟨some co, some dm, some ic⟩ now = (st, none) := by
  unfold procesar_simbolo
  dsimp only
  by_cases h1 : FMap.tiene st.operaciones_activas simbolo
  · rw [if_pos h1]
  · rw [if_neg h1, if_pos hfil]

/-- The channel-width gate inside `detectar_breakout`. -/
theorem detectar_breakout_ancho (cfg : Config) (bd : FMap BreakoutDetQ) (s : Symbol)
    (ic : InfoCanal) (dm : DatosMercado) (now : ℚ)
    (hw : ic.ancho_canal_porcentual < cfg.min_channel_width_percent) :
    detectar_breakout cfg bd s ic dm now = none := by
  unfold detectar_breakout
  rw [if_pos hw]

/-- C4 counterexample: the claim promises removal "regardless of the current
price or channel values presented in that cycle", but with the weak channel
`icDebil` (strengthLevel 1) the quality gate aborts the cycle first and the
timed-out entry survives. -/
theorem C4_contraejemplo :
    30 < ((1861 : ℚ) - biLargo.timestamp) / 60 ∧
    (procesar_simbolo cfgEj stPendiente "BTCUSDT" inpDebil 1861).2 = none ∧
    (procesar_simbolo cfgEj stPendiente "BTCUSDT" inpDebil 1861).1.esperando_reentry
      "BTCUSDT" = some biLargo := by
  have h : procesar_simbolo cfgEj stPendiente "BTCUSDT" inpDebil 1861 =
      (stPendiente, none) :=
    procesar_simbolo_filtros cfgEj stPendiente "BTCUSDT" coEj dmEj icDebil 1861
      (Or.inl (by norm_num [icDebil, icEstrecho]))
  refine ⟨by norm_num [biLargo], ?_, ?_⟩
  · rw [h]
  · rw [h]
    rfl

/-- C2 (amended): the three statistical data-quality filters —
`strengthLevel < 2`, `|pearsonCorrelation| < 0.4`, `r2Score < 0.4` — reject a
symbol's whole scan cycle before any transition in every state; the
channel-width minimum, by contrast, is enforced only inside
`detectar_breakout`, i.e. it gates the breakout-detection path but not the
reentry-confirmation path. -/
theorem C2_filtros_calidad (cfg : Config) (st : ScanState) (simbolo : Symbol)
    (co : ConfigOptima) (dm : DatosMercado) (ic : InfoCanal) (now : ℚ)
    (hfil : ic.nivel_fuerza < 2 ∨ pyabs ic.coeficiente_pearson < 2/5 ∨ ic.r2_score < 2/5) :
    procesar_simbolo cfg st simbolo ⟨some co, some dm, some ic⟩ now = (st, none) ∧
    (∀ (bd : FMap BreakoutDetQ) (s2 : Symbol) (ic2 : InfoCanal) (dm2 : DatosMercado)
       (now2 : ℚ), ic2.ancho_canal_porcentual < cfg.min_channel_width_percent →
       detectar_breakout cfg bd s2 ic2 dm2 now2 = none) :=
  ⟨procesar_simbolo_filtros cfg st simbolo co dm ic now hfil,
   fun bd s2 ic2 dm2 now2 hw => detectar_breakout_ancho cfg bd s2 ic2 dm2 now2 hw⟩

/-- C2 witness: a cycle with the weak channel `icDebil` is rejected with the
state untouched, and any channel below the 4% width minimum yields no
breakout. -/
theorem C2_filtros_calidad_witness :
    procesar_simbolo cfgEj stPendiente "BTCUSDT" ⟨some coEj, some dmEj, some icDebil⟩ 60 =
      (stPendiente, none) ∧
    (∀ (bd : FMap BreakoutDetQ) (s2 : Symbol) (ic2 : InfoCanal) (dm2 : DatosMercado)
       (now2 : ℚ), ic2.ancho_canal_porcentual < cfgEj.min_channel_width_percent →
       detectar_breakout cfgEj bd s2 ic2 dm2 now2 = none) :=
  C2_filtros_calidad cfgEj stPendiente "BTCUSDT" coEj dmEj icDebil 60 (by decide)

/-- C2 counterexample: the claim says the channel-width minimum gates the
reentry path too; but with the 1%-wide (yet statistically strong) channel
`icEstrecho` the cycle still confirms the reentry and emits a LONG signal. -/
theorem C2_contraejemplo :
    icEstrecho.ancho_canal_porcentual < cfgEj.min_channel_width_percent ∧
    (procesar_simbolo cfgEj stPendiente "BTCUSDT" inpEstrecho 60).2 =
      some { simbolo := "BTCUSDT", tipo := TipoOperacion.LONG,
             precio_entrada := 100, take_profit := 110, stop_loss := 98 } := by
  constructor
  · norm_num [icEstrecho, cfgEj]
  · norm_num [procesar_simbolo, procesar_tail, detectar_reentry, calcular_niveles_entrada,
      generar_senal_operacion, FMap.tiene, FMap.set, FMap.borrar, FMap.vacio, pyabs,
      estadoVacio, stPendiente, inpEstrecho, icEstrecho, dmEj, biLargo, cfgEj, coEj]

theorem pyabs_eq_abs (q : ℚ) : pyabs q = |q| := by
  unfold pyabs
  rcases lt_or_ge q 0 with h | h
  · rw [if_pos h, abs_of_neg h]
  · rw [if_neg (not_lt.mpr h), abs_of_nonneg h]

theorem ratio_tras_ajuste (riesgo m : ℚ) (hr : 0 < riesgo) :
    m ≤ pyabs (riesgo * m) / riesgo := by
  rw [pyabs_eq_abs, abs_mul, abs_of_pos hr, mul_comm, mul_div_assoc,
    div_self (ne_of_gt hr), mul_one]
  exact le_abs_self m

/-- C3 (amended): for either side, a positive channel and a positive price,
`calcular_niveles_entrada` returns entry = currentPrice, the side's stop-loss
formula (entry × 0.98 for LONG, resistance × 1.02 for SHORT) and the side's
take-profit formula (entry ± channel width); exactly when the resulting
reward/risk ratio is below `min_rr_ratio` the take-profit alone is moved to
entry ± risk × min_rr_ratio, after which reward/risk ≥ min_rr_ratio holds —
provided the risk is nonzero, i.e. for SHORT the price is not exactly
resistance × 1.02. -/
theorem C3_niveles_entrada (cfg : Config) (tipo : TipoOperacion) (canal : InfoCanal)
    (precio_actual : ℚ) (hs : 0 < canal.soporte) (hrs : canal.soporte ≤ canal.resistencia)
    (hp : 0 < precio_actual)
    (hq : tipo = TipoOperacion.SHORT → precio_actual ≠ canal.resistencia * (1 + 2/100)) :
    ∃ tp : ℚ,
      calcular_niveles_entrada cfg tipo (some canal) precio_actual =
        some (precio_actual, tp,
          match tipo with
          | TipoOperacion.LONG => precio_actual * (1 - 2/100)
          | TipoOperacion.SHORT => canal.resistencia * (1 + 2/100)) ∧
      (let stop_loss : ℚ :=
         match tipo with
         | TipoOperacion.LONG => precio_actual * (1 - 2/100)
         | TipoOperacion.SHORT => canal.resistencia * (1 + 2/100)
       let tp_base : ℚ :=
         match tipo with
         | TipoOperacion.LONG => precio_actual + (canal.resistencia - canal.soporte)
         | TipoOperacion.SHORT => precio_actual - (canal.resistencia - canal.soporte)
       let riesgo := pyabs (precio_actual - stop_loss)
       (if pyabs (tp_base - precio_actual) / riesgo < cfg.min_rr_ratio then
          tp = (match tipo with
                | TipoOperacion.LONG => precio_actual + riesgo * cfg.min_rr_ratio
                | TipoOperacion.SHORT => precio_actual - riesgo * cfg.min_rr_ratio)
        else tp = tp_base) ∧
       cfg.min_rr_ratio ≤ pyabs (tp - precio_actual) / riesgo) := by
  cases tipo with
  | LONG =>
    have hd : (0 : ℚ) < precio_actual - precio_actual * (1 - 2/100) := by nlinarith
    have hr : 0 < pyabs (precio_actual - precio_actual * (1 - 2/100)) := by
      rw [pyabs_eq_abs]
      exact abs_pos.mpr (ne_of_gt hd)
    unfold calcular_niveles_entrada
    dsimp only
    rw [if_pos hr]
    split_ifs with hratio
    · refine ⟨_, rfl, rfl, ?_⟩
      have he : precio_actual +
            pyabs (precio_actual - precio_actual * (1 - 2/100)) * cfg.min_rr_ratio -
            precio_actual =
            pyabs (precio_actual - precio_actual * (1 - 2/100)) * cfg.min_rr_ratio := by
          ring
      rw [he]
      exact ratio_tras_ajuste _ _ hr
    · exact ⟨_, rfl, rfl, not_lt.mp hratio⟩
  | SHORT =>
    have hd : precio_actual - canal.resistencia * (1 + 2/100) ≠ 0 :=
      sub_ne_zero.mpr (hq rfl)
    have hr : 0 < pyabs (precio_actual - canal.resistencia * (1 + 2/100)) := by
      rw [pyabs_eq_abs]
      exact abs_pos.mpr hd
    unfold calcular_niveles_entrada
    dsimp only
    rw [if_pos hr]
    split_ifs with hratio
    · refine ⟨_, rfl, rfl, ?_⟩
      have he : precio_actual -
            pyabs (precio_actual - canal.resistencia * (1 + 2/100)) * cfg.min_rr_ratio -
            precio_actual =
            -(pyabs (precio_actual - canal.resistencia * (1 + 2/100)) * cfg.min_rr_ratio) := by
          ring
      rw [he, pyabs_eq_abs, abs_neg, ← pyabs_eq_abs]
      exact ratio_tras_ajuste _ _ hr
    · exact ⟨_, rfl, rfl, not_lt.mp hratio⟩

/-- C3 witness: a LONG at price 60 in the 50-100 channel gets stop 58.8,
take-profit 110 (no adjustment needed) and reward/risk 125/3 ≥ 1.2. -/
theorem C3_niveles_entrada_witness :
    ∃ tp : ℚ,
      calcular_niveles_entrada cfgEj TipoOperacion.LONG (some canalCorto) 60 =
        some (60, tp, 60 * (1 - 2/100)) ∧
      ((if pyabs (60 + (canalCorto.resistencia - canalCorto.soporte) - 60) /
            pyabs (60 - 60 * (1 - 2/100)) < cfgEj.min_rr_ratio then
          tp = 60 + pyabs (60 - 60 * (1 - 2/100)) * cfgEj.min_rr_ratio
        else tp = 60 + (canalCorto.resistencia - canalCorto.soporte)) ∧
       cfgEj.min_rr_ratio ≤ pyabs (tp - 60) / pyabs (60 - 60 * (1 - 2/100))) :=
  C3_niveles_entrada cfgEj TipoOperacion.LONG canalCorto 60
    (by norm_num [canalCorto]) (by norm_num [canalCorto]) (by norm_num)
    (fun h => nomatch h)

/-- C3 counterexample: for SHORT at price = resistance × 1.02 the risk is
zero, the adjustment fires with risk 0, and the returned levels are
(102, 102, 102) with reward/risk 0 — the claimed bound
reward/risk ≥ min_rr_ratio − ε fails for every ε < 1.2. -/
theorem C3_contraejemplo :
    calcular_niveles_entrada cfgEj TipoOperacion.SHORT (some canalCorto) 102 =
      some (102, 102, 102) ∧
    ¬ (cfgEj.min_rr_ratio ≤ pyabs ((102 : ℚ) - 102) / pyabs ((102 : ℚ) - 102)) := by
  constructor
  · norm_num [calcular_niveles_entrada, canalCorto, cfgEj, pyabs]
  · norm_num [cfgEj, pyabs]

/-! ## The pending/active exclusion invariant (C8) -/

theorem SinDoble_detectar_reentry (st : ScanState) (s : Symbol) (ic : InfoCanal)
    (dm : DatosMercado) (now : ℚ) (h : SinDoble st) :
    SinDoble (detectar_reentry st s ic dm now).2 := by
  rcases detectar_reentry_cases st s ic dm now with hc | hc | hc <;> rw [hc] <;> intro t ht
  · exact h t ht
  · exact h t ht
  · by_cases hts : t = s
    · subst hts
      exact FMap.borrar_mismo _ _
    · exact (FMap.borrar_otro _ _ _ hts).trans (h t ht)

theorem generar_senal_activas_otro (st : ScanState) (simbolo t : Symbol)
    (tipo : TipoOperacion) (pe tp sl now : ℚ) (hts : t ≠ simbolo) :
    (generar_senal_operacion st simbolo tipo pe tp sl now).operaciones_activas t =
      st.operaciones_activas t := by
  unfold generar_senal_operacion
  split
  · rfl
  · exact FMap.set_otro _ _ _ _ hts

theorem generar_senal_esperando (st : ScanState) (simbolo : Symbol)
    (tipo : TipoOperacion) (pe tp sl now : ℚ) :
    (generar_senal_operacion st simbolo tipo pe tp sl now).esperando_reentry =
      st.esperando_reentry := by
  unfold generar_senal_operacion
  split <;> rfl

theorem SinDoble_senal_final (st1 : ScanState) (simbolo : Symbol) (tipo : TipoOperacion)
    (pe tp sl now : ℚ) (h1 : SinDoble st1) :
    SinDoble { generar_senal_operacion st1 simbolo tipo pe tp sl now with
        breakout_history := FMap.set
          (generar_senal_operacion st1 simbolo tipo pe tp sl now).breakout_history
          simbolo now,
        esperando_reentry := FMap.borrar
          (generar_senal_operacion st1 simbolo tipo pe tp sl now).esperando_reentry
          simbolo } := by
  intro t ht
  by_cases hts : t = simbolo
  · subst hts
    exact FMap.borrar_mismo _ _
  · refine (FMap.borrar_otro _ _ _ hts).trans ?_
    rw [generar_senal_esperando]
    refine h1 t ?_
    rw [← generar_senal_activas_otro st1 simbolo t tipo pe tp sl now hts]
    exact ht

theorem SinDoble_procesar_tail (cfg : Config) (st : ScanState) (simbolo : Symbol)
    (datos : DatosMercado) (ic : InfoCanal) (now : ℚ) (h : SinDoble st) :
    SinDoble (procesar_tail cfg st simbolo datos ic now).1 := by
  have h1 : SinDoble (detectar_reentry st simbolo ic datos now).2 :=
    SinDoble_detectar_reentry st simbolo ic datos now h
  unfold procesar_tail
  dsimp only
  generalize (detectar_reentry st simbolo ic datos now) = res at h1 ⊢
  obtain ⟨r1, st1⟩ := res
  dsimp only at h1 ⊢
  repeat' split
  any_goals exact h1
  exact SinDoble_senal_final st1 simbolo _ _ _ _ now h1

theorem SinDoble_procesar (cfg : Config) (st : ScanState) (simbolo : Symbol)
    (inp : CycleInput) (now : ℚ) (h : SinDoble st) :
    SinDoble (procesar_simbolo cfg st simbolo inp now).1 := by
  obtain ⟨co, dm, ic⟩ := inp
  unfold procesar_simbolo
  dsimp only
  by_cases h1 : FMap.tiene st.operaciones_activas simbolo
  · rw [if_pos h1]
    exact h
  · rw [if_neg h1]
    cases co with
    | none => exact h
    | some co =>
    cases dm with
    | none => exact h
    | some dm =>
    cases ic with
    | none => exact h
    | some ic =>
    dsimp only
    split
    · exact h
    · by_cases h2 : ¬ FMap.tiene st.esperando_reentry simbolo
      · rw [if_pos h2]
        cases hb : detectar_breakout cfg st.breakouts_detectados simbolo ic dm now with
        | some tk =>
          dsimp only
          intro t ht
          by_cases hts : t = simbolo
          · subst hts
            exact absurd ht (by simpa [FMap.tiene] using h1)
          · exact (FMap.set_otro _ _ _ _ hts).trans (h t ht)
        | none => exact SinDoble_procesar_tail cfg st simbolo dm ic now h
      · rw [if_neg h2]
        exact SinDoble_procesar_tail cfg st simbolo dm ic now h

theorem SinDoble_foldl (cfg : Config) (inputs : Symbol → CycleInput) (now : ℚ) :
    ∀ (l : List Symbol) (acc : ScanState × List Senal), SinDoble acc.1 →
      SinDoble (l.foldl (fun acc simbolo =>
        let paso := procesar_simbolo cfg acc.1 simbolo (inputs simbolo) now
        (paso.1, acc.2 ++ paso.2.toList)) acc).1 := by
  intro l
  induction l with
  | nil => exact fun acc hacc => hacc
  | cons s rest ih =>
    intro acc hacc
    exact ih _ (SinDoble_procesar cfg acc.1 s (inputs s) now hacc)

theorem SinDoble_escanear (cfg : Config) (inputs : Symbol → CycleInput) (now : ℚ)
    (st : ScanState) (h : SinDoble st) :
    SinDoble (escanear_mercado cfg inputs now st).1 :=
  SinDoble_foldl cfg inputs now cfg.symbols (st, []) h

theorem SinDoble_cerrar (st : ScanState) (simbolo : Symbol) (h : SinDoble st) :
    SinDoble (cerrar_operacion st simbolo) := by
  intro t ht
  by_cases hts : t = simbolo
  · subst hts
    exact absurd ht (by simp [cerrar_operacion, FMap.borrar, FMap.borrar_mismo])
  · refine h t ?_
    simpa [cerrar_operacion, FMap.borrar_otro _ _ _ hts] using ht

/-- C8: in every state reachable by the scan loop (initial state, scan
cycles, operation closes), no symbol simultaneously has a pending breakout in
`esperando_reentry` and an active operation in `operaciones_activas`: a
symbol with an active operation is skipped before a breakout can be
registered, and the pending entry is deleted when the position signal is
generated. -/
theorem C8_invariante_sin_doble (cfg : Config) (st : ScanState)
    (h : Alcanzable cfg st) : SinDoble st := by
  induction h with
  | inicial =>
    intro t ht
    exact absurd ht (by simp [estadoVacio, FMap.vacio])
  | escaneo st inputs now _ ih => exact SinDoble_escanear cfg inputs now st ih
  | cierre st simbolo _ ih => exact SinDoble_cerrar st simbolo ih

/-- C8 witness: the invariant holds at the reachable initial state. -/
theorem C8_invariante_sin_doble_witness : SinDoble estadoVacio :=
  C8_invariante_sin_doble cfgEj estadoVacio Alcanzable.inicial

/-! ## Channel analyzer failure conditions (C9) -/

theorem calcular_regresion_lineal_none_iff (x y : List ℚ) :
    calcular_regresion_lineal x y = none ↔ x.length ≠ y.length ∨ x = [] := by
  unfold calcular_regresion_lineal
  split
  · next hcond =>
    simp only [true_iff]
    rcases hcond with h | h
    · exact Or.inl h
    · exact Or.inr (List.length_eq_zero.mp h)
  · next hcond =>
    push_neg at hcond
    simp only [reduceCtorEq, false_iff, not_or]
    exact ⟨fun hne => hne hcond.1, fun hnil =>
      hcond.2 (by rw [hnil]; rfl)⟩

theorem calcular_regresion_lineal_some (x y : List ℚ) (hl : x.length = y.length)
    (hx : x ≠ []) : ∃ pi : ℚ × ℚ, calcular_regresion_lineal x y = some pi := by
  unfold calcular_regresion_lineal
  rw [if_neg]
  · exact ⟨_, rfl⟩
  · push_neg
    exact ⟨hl, by simpa using hx⟩

theorem calcular_regresion_singleton (a b : ℚ) :
    calcular_regresion_lineal [a] [b] = some (0, b) := by
  unfold calcular_regresion_lineal
  rw [if_neg (by simp)]
  dsimp only
  rw [if_pos (by push_cast; simp)]
  norm_num

theorem sliceUlt_length (cp : ℕ) (l : List ℚ) (h1 : 1 ≤ cp) (h2 : cp ≤ l.length) :
    (sliceUlt cp l).length = cp := by
  unfold sliceUlt
  rw [if_neg (by omega), List.length_drop]
  omega

/-- With enough consistent bars the analyzer always produces a channel; for
`candle_period = 1` the regression denominator is degenerate, the slope is
guarded to 0, and the channel is still produced. -/
theorem canal_produce (sqrtF atanDegF : ℚ → ℚ) (dm : DatosMercadoFull) (cp : ℕ)
    (hcons : dm.Consistente) (h1 : 1 ≤ cp) (h2 : cp ≤ dm.maximos.length) :
    ∃ c : InfoCanalFull, calcular_canal_regresion_config sqrtF atanDegF dm cp = some c ∧
      (cp = 1 → c.pendiente_tendencia = 0) := by
  obtain ⟨hct, hcm, hcc⟩ := hcons
  have lmx : (sliceUlt cp dm.maximos).length = cp := sliceUlt_length _ _ h1 h2
  have lmt : (sliceUlt cp dm.tiempos).length = cp := sliceUlt_length _ _ h1 (by omega)
  have lmn : (sliceUlt cp dm.minimos).length = cp := sliceUlt_length _ _ h1 (by omega)
  have lcc : (sliceUlt cp dm.cierres).length = cp := sliceUlt_length _ _ h1 (by omega)
  have ltreg : ((List.range (sliceUlt cp dm.tiempos).length).map
      (fun i : ℕ => (i : ℚ))).length = cp := by
    simp [lmt]
  have hne : (List.range (sliceUlt cp dm.tiempos).length).map (fun i : ℕ => (i : ℚ)) ≠ [] := by
    refine List.length_pos.mp ?_
    omega
  obtain ⟨⟨p1, i1⟩, hm1⟩ := calcular_regresion_lineal_some _ (sliceUlt cp dm.maximos)
    (by omega) hne
  obtain ⟨⟨p2, i2⟩, hm2⟩ := calcular_regresion_lineal_some _ (sliceUlt cp dm.minimos)
    (by omega) hne
  obtain ⟨⟨p3, i3⟩, hm3⟩ := calcular_regresion_lineal_some _ (sliceUlt cp dm.cierres)
    (by omega) hne
  unfold calcular_canal_regresion_config
  rw [if_neg (not_lt.mpr h2)]
  dsimp only
  rw [hm1, hm2, hm3]
  dsimp only
  refine ⟨_, rfl, ?_⟩
  intro hcp1
  subst hcp1
  obtain ⟨t0, ht0⟩ := List.length_eq_one.mp lmt
  obtain ⟨c0, hc0⟩ := List.length_eq_one.mp lcc
  have htreg : (List.range (sliceUlt 1 dm.tiempos).length).map (fun i : ℕ => (i : ℚ)) =
      [(0 : ℚ)] := by
    rw [ht0]
    show List.map (fun i : ℕ => (i : ℚ)) [0] = [(0 : ℚ)]
    simp
  rw [htreg, hc0, calcular_regresion_singleton] at hm3
  have := Option.some.inj hm3
  have hp3 : p3 = 0 := by
    have := congrArg Prod.fst this
    exact this.symm
  exact hp3

/-- C9 (amended): channel analysis returns None whenever fewer than
`candle_period` bars are available, and the linear regression returns None
exactly for mismatched-length or empty input; a degenerate regression
denominator, however, is guarded by forcing the slope to 0 — with consistent
data and `1 ≤ candle_period ≤ bars` a channel descriptor is still produced,
and for `candle_period = 1` (zero-variance index) its trend slope is 0. -/
theorem C9_canal_fallos (sqrtF atanDegF : ℚ → ℚ) (dm : DatosMercadoFull) (cp : ℕ) :
    (dm.maximos.length < cp → calcular_canal_regresion_config sqrtF atanDegF dm cp = none) ∧
    (∀ x y : List ℚ, calcular_regresion_lineal x y = none ↔
      x.length ≠ y.length ∨ x = []) ∧
    (dm.Consistente → 1 ≤ cp → cp ≤ dm.maximos.length →
      ∃ c : InfoCanalFull,
        calcular_canal_regresion_config sqrtF atanDegF dm cp = some c ∧
        (cp = 1 → c.pendiente_tendencia = 0)) := by
  refine ⟨?_, calcular_regresion_lineal_none_iff, canal_produce sqrtF atanDegF dm cp⟩
  intro hlt
  unfold calcular_canal_regresion_config
  rw [if_pos hlt]

/-- C9 witness: no channel from 0 bars with `candle_period` 1; regression
fails exactly on empty input; one consistent bar still yields a channel. -/
theorem C9_canal_fallos_witness :
    calcular_canal_regresion_config (fun _ => 0) (fun _ => 0)
      { tiempos := [], maximos := [], minimos := [], cierres := [], precio_actual := 0 }
      1 = none ∧
    (calcular_regresion_lineal [] [] = none ↔
      ([] : List ℚ).length ≠ ([] : List ℚ).length ∨ ([] : List ℚ) = []) ∧
    (∃ c : InfoCanalFull,
      calcular_canal_regresion_config (fun _ => 0) (fun _ => 0) dmUno 1 = some c ∧
      (1 = 1 → c.pendiente_tendencia = 0)) :=
  ⟨(C9_canal_fallos (fun _ => 0) (fun _ => 0) _ 1).1 (by norm_num),
   (C9_canal_fallos (fun _ => 0) (fun _ => 0)
      { tiempos := [], maximos := [], minimos := [], cierres := [], precio_actual := 0 }
      1).2.1 [] [],
   (C9_canal_fallos (fun _ => 0) (fun _ => 0) dmUno 1).2.2
     ⟨rfl, rfl, rfl⟩ le_rfl (by norm_num [dmUno])⟩

/-- C9 counterexample: the claim says a degenerate regression denominator
(zero variance of the index) yields "no channel"; but with one bar the index
list is `[0]`, the denominator `1·(0·0) − 0·0` is zero, the regression still
returns a (slope 0) result rather than None, and a full channel descriptor is
produced. -/
theorem C9_contraejemplo :
    ((dmUno.maximos.length : ℚ) * (([(0 : ℚ)].map (fun a => a * a)).sum) -
      [(0 : ℚ)].sum * [(0 : ℚ)].sum) = 0 ∧
    calcular_regresion_lineal [(0 : ℚ)] [(10 : ℚ)] = some (0, 10) ∧
    (calcular_canal_regresion_config (fun _ => 0) (fun _ => 0) dmUno 1).isSome = true := by
  refine ⟨by norm_num [dmUno], calcular_regresion_singleton 0 10, ?_⟩
  obtain ⟨c, hc, -⟩ := canal_produce (fun _ => 0) (fun _ => 0) dmUno 1
    ⟨rfl, rfl, rfl⟩ le_rfl (by norm_num [dmUno])
  rw [hc]
  rfl

/-! ## The optimizer grid search (C5) -/

theorem pasoOptimizador_mono (sqrtF : ℚ → ℚ) (datos : List OpRecord) :
    ∀ (l : List (ℚ × ℚ × ℚ)) (acc : ℚ × Option MejoresParam),
      acc.1 ≤ (l.foldl (pasoOptimizador sqrtF datos) acc).1 := by
  intro l
  induction l with
  | nil => exact fun acc => le_refl _
  | cons c rest ih =>
    intro acc
    refine le_trans ?_ (ih (pasoOptimizador sqrtF datos acc c))
    unfold pasoOptimizador
    dsimp only
    split
    · next h => exact le_of_lt h
    · exact le_refl _

theorem pasoOptimizador_cota (sqrtF : ℚ → ℚ) (datos : List OpRecord) :
    ∀ (l : List (ℚ × ℚ × ℚ)) (acc : ℚ × Option MejoresParam), ∀ combo ∈ l,
      evaluar_configuracion sqrtF datos combo.1 combo.2.1 combo.2.2 ≤
        (l.foldl (pasoOptimizador sqrtF datos) acc).1 := by
  intro l
  induction l with
  | nil => exact fun acc combo h => absurd h (List.not_mem_nil _)
  | cons c rest ih =>
    intro acc combo h
    rcases List.mem_cons.mp h with rfl | h2
    · refine le_trans ?_ (pasoOptimizador_mono sqrtF datos rest
        (pasoOptimizador sqrtF datos acc combo))
      unfold pasoOptimizador
      dsimp only
      split
      · exact le_refl _
      · next h3 => exact not_lt.mp h3
    · exact ih (pasoOptimizador sqrtF datos acc c) combo h2

theorem pasoOptimizador_none (sqrtF : ℚ → ℚ) (datos : List OpRecord) :
    ∀ (l : List (ℚ × ℚ × ℚ)) (acc : ℚ × Option MejoresParam),
      (l.foldl (pasoOptimizador sqrtF datos) acc).2 = none →
      l.foldl (pasoOptimizador sqrtF datos) acc = acc := by
  intro l
  induction l with
  | nil => exact fun acc _ => rfl
  | cons c rest ih =>
    intro acc h
    rw [List.foldl_cons] at h ⊢
    by_cases hu : acc.1 < evaluar_configuracion sqrtF datos c.1 c.2.1 c.2.2
    · exfalso
      have h1 : pasoOptimizador sqrtF datos acc c =
          (evaluar_configuracion sqrtF datos c.1 c.2.1 c.2.2,
           some { trend_threshold_degrees := c.1,
                  min_trend_strength_degrees := c.2.1,
                  entry_margin := c.2.2,
                  score := evaluar_configuracion sqrtF datos c.1 c.2.1 c.2.2,
                  evaluated_samples := datos.length }) := by
        unfold pasoOptimizador
        dsimp only
        rw [if_pos hu]
      rw [ih _ h, h1] at h
      exact Option.noConfusion h
    · have h1 : pasoOptimizador sqrtF datos acc c = acc := by
        unfold pasoOptimizador
        dsimp only
        rw [if_neg hu]
      rw [h1] at h ⊢
      exact ih acc h

theorem pasoOptimizador_some (sqrtF : ℚ → ℚ) (datos : List OpRecord) :
    ∀ (l : List (ℚ × ℚ × ℚ)) (acc : ℚ × Option MejoresParam),
      (∀ c ∈ l, c ∈ parameterGrid) →
      (∀ p : MejoresParam, acc.2 = some p → p.score = acc.1 ∧
        p.evaluated_samples = datos.length ∧
        (p.trend_threshold_degrees, p.min_trend_strength_degrees, p.entry_margin) ∈
          parameterGrid ∧
        p.score = evaluar_configuracion sqrtF datos p.trend_threshold_degrees
          p.min_trend_strength_degrees p.entry_margin) →
      ∀ p : MejoresParam, (l.foldl (pasoOptimizador sqrtF datos) acc).2 = some p →
        p.score = (l.foldl (pasoOptimizador sqrtF datos) acc).1 ∧
        p.evaluated_samples = datos.length ∧
        (p.trend_threshold_degrees, p.min_trend_strength_degrees, p.entry_margin) ∈
          parameterGrid ∧
        p.score = evaluar_configuracion sqrtF datos p.trend_threshold_degrees
          p.min_trend_strength_degrees p.entry_margin := by
  intro l
  induction l with
  | nil => exact fun acc _ hacc => hacc
  | cons c rest ih =>
    intro acc hgrid hacc
    rw [List.foldl_cons]
    refine ih (pasoOptimizador sqrtF datos acc c)
      (fun x hx => hgrid x (List.mem_cons_of_mem c hx)) ?_
    intro p hp
    unfold pasoOptimizador at hp ⊢
    dsimp only at hp ⊢
    split at hp
    · next hu =>
      dsimp only at hp
      cases Option.some.inj hp
      have hc : c ∈ parameterGrid := hgrid c (List.mem_cons_self c rest)
      have hceta : (c.1, c.2.1, c.2.2) = c := by
        simp
      rw [if_pos hu]
      exact ⟨rfl, rfl, by rw [hceta]; exact hc, rfl⟩
    · next hu =>
      rw [if_neg hu]
      exact hacc p hp

/-- C5 (as intended by the source, whose argmax block is syntactically
corrupted): `buscar_mejores_parametros` returns no recommendation when the
ledger has fewer than `min_samples` records; any returned recommendation is a
grid combination carrying its own `evaluar_configuracion` score and the full
ledger size, and its score is maximal over the whole grid; and whenever the
ledger is large enough and some grid combination scores above the -1e9
sentinel, a recommendation is returned. -/
theorem C5_optimizador_argmax (sqrtF : ℚ → ℚ) (datos : List OpRecord) (min_samples : ℕ) :
    (datos.length < min_samples → buscar_mejores_parametros sqrtF datos min_samples = none) ∧
    (∀ p : MejoresParam, buscar_mejores_parametros sqrtF datos min_samples = some p →
      p.evaluated_samples = datos.length ∧
      (p.trend_threshold_degrees, p.min_trend_strength_degrees, p.entry_margin) ∈
        parameterGrid ∧
      p.score = evaluar_configuracion sqrtF datos p.trend_threshold_degrees
        p.min_trend_strength_degrees p.entry_margin ∧
      (∀ combo ∈ parameterGrid,
        evaluar_configuracion sqrtF datos combo.1 combo.2.1 combo.2.2 ≤ p.score)) ∧
    (min_samples ≤ datos.length → datos ≠ [] →
      (∃ combo ∈ parameterGrid,
        -(10 ^ 9 : ℚ) < evaluar_configuracion sqrtF datos combo.1 combo.2.1 combo.2.2) →
      (buscar_mejores_parametros sqrtF datos min_samples).isSome = true) := by
  refine ⟨?_, ?_, ?_⟩
  · intro h
    unfold buscar_mejores_parametros
    rw [if_pos (Or.inr h)]
  · intro p hp
    unfold buscar_mejores_parametros at hp
    split at hp
    · exact absurd hp (by simp)
    · have hq := pasoOptimizador_some sqrtF datos parameterGrid
        ((-(10 ^ 9 : ℚ), none) : ℚ × Option MejoresParam)
        (fun c hc => hc) (fun p hp => by exact absurd hp (by simp)) p hp
      obtain ⟨hscore, hsamp, hmem, heval⟩ := hq
      refine ⟨hsamp, hmem, heval, ?_⟩
      intro combo hcombo
      rw [hscore]
      exact pasoOptimizador_cota sqrtF datos parameterGrid _ combo hcombo
  · intro hlen hne ⟨combo, hcombo, hscore⟩
    unfold buscar_mejores_parametros
    rw [if_neg (by push_neg; exact ⟨hne, hlen⟩)]
    cases hres : (parameterGrid.foldl (pasoOptimizador sqrtF datos)
        ((-(10 ^ 9 : ℚ), none) : ℚ × Option MejoresParam)).2 with
    | some p => rfl
    | none =>
      exfalso
      have h1 := pasoOptimizador_none sqrtF datos parameterGrid
        ((-(10 ^ 9 : ℚ), none) : ℚ × Option MejoresParam) hres
      have h2 := pasoOptimizador_cota sqrtF datos parameterGrid
        ((-(10 ^ 9 : ℚ), none) : ℚ × Option MejoresParam) combo hcombo
      rw [h1] at h2
      exact absurd (lt_of_lt_of_le hscore h2) (lt_irrefl _)

/-- C5 witness: an empty ledger yields no recommendation; a 15-record ledger
whose records every combination filters out still yields a recommendation
(first grid combination, score -10000 beating the -1e9 sentinel). -/
theorem C5_optimizador_argmax_witness :
    buscar_mejores_parametros (fun _ => 0) [] 15 = none ∧
    (buscar_mejores_parametros (fun _ => 0) (List.replicate 15 opEj) 15).isSome = true :=
  ⟨(C5_optimizador_argmax (fun _ => 0) [] 15).1 (by norm_num),
   (C5_optimizador_argmax (fun _ => 0) (List.replicate 15 opEj) 15).2.2
     (by simp) (by simp)
     ⟨(3, 3, 5/10000),
      List.mem_flatMap.mpr ⟨3, by norm_num,
        List.mem_flatMap.mpr ⟨3, by norm_num,
          List.mem_map.mpr ⟨5/10000, by norm_num, rfl⟩⟩⟩,
      by norm_num [evaluar_configuracion, opEj, pyabs, List.filter_replicate]⟩⟩

/-! ## ISO-8601 timestamp round-trip (C6, C7) -/

theorem digitVal_digitChar (n : ℕ) (h : n < 10) : digitVal (digitChar n) = some n := by
  interval_cases n <;> decide

theorem parse2_pad2 (n : ℕ) (h : n < 100) (r : List Char) :
    parse2 (pad2 n ++ r) = some (n, r) := by
  show parse2 (digitChar (n / 10) :: digitChar (n % 10) :: r) = some (n, r)
  unfold parse2
  dsimp only
  rw [digitVal_digitChar (n / 10) (by omega), digitVal_digitChar (n % 10) (by omega)]
  dsimp only
  rw [Nat.div_add_mod]

theorem pad4_eq (n : ℕ) : pad4 n = pad2 (n / 100) ++ pad2 (n % 100) := by
  unfold pad4 pad2
  have h1 : n / 100 / 10 = n / 1000 := by omega
  have h3 : n % 100 / 10 = n / 10 % 10 := by omega
  have h4 : n % 100 % 10 = n % 10 := by omega
  rw [h1, h3, h4]
  rfl

theorem parse4_pad4 (n : ℕ) (h : n < 10000) (r : List Char) :
    parse4 (pad4 n ++ r) = some (n, r) := by
  rw [pad4_eq, List.append_assoc]
  unfold parse4
  rw [parse2_pad2 (n / 100) (by omega)]
  dsimp only
  rw [parse2_pad2 (n % 100) (by omega)]
  dsimp only
  have : 100 * (n / 100) + n % 100 = n := by omega
  rw [this]

theorem pad6_eq (n : ℕ) :
    pad6 n = pad2 (n / 10000) ++ (pad2 (n / 100 % 100) ++ pad2 (n % 100)) := by
  unfold pad6 pad2
  have h1 : n / 10000 / 10 = n / 100000 := by omega
  have h2 : n / 10000 % 10 = n / 10000 % 10 := rfl
  have h3 : n / 100 % 100 / 10 = n / 1000 % 10 := by omega
  have h4 : n / 100 % 100 % 10 = n / 100 % 10 := by omega
  have h5 : n % 100 / 10 = n / 10 % 10 := by omega
  have h6 : n % 100 % 10 = n % 10 := by omega
  rw [h1, h3, h4, h5, h6]
  rfl

theorem parse6_pad6 (n : ℕ) (h : n < 1000000) (r : List Char) :
    parse6 (pad6 n ++ r) = some (n, r) := by
  rw [pad6_eq, List.append_assoc, List.append_assoc]
  unfold parse6
  rw [parse2_pad2 (n / 10000) (by omega)]
  dsimp only
  rw [← List.append_assoc, List.append_assoc]
  rw [parse2_pad2 (n / 100 % 100) (by omega)]
  dsimp only
  rw [parse2_pad2 (n % 100) (by omega)]
  dsimp only
  have : 10000 * (n / 10000) + 100 * (n / 100 % 100) + n % 100 = n := by omega
  rw [this]

theorem expectChar_self (c : Char) (r : List Char) : expectChar c (c :: r) = some r := by
  unfold expectChar
  dsimp only
  rw [if_pos rfl]

/-- CPython guarantee embedded at the character level: `fromisoformat`
inverts `isoformat` on in-range datetimes, microseconds included. -/
theorem fromisoformat_isoformat (d : DateTime) (h : d.Valid) :
    fromisoformat d.isoformat = some d := by
  obtain ⟨hy, hmo, hda, hh, hmi, hs, hus⟩ := h
  obtain ⟨y, mo, da, hr, mi, se, us⟩ := d
  dsimp only at hy hmo hda hh hmi hs hus
  unfold DateTime.isoformat fromisoformat
  dsimp only
  rw [parse4_pad4 y hy]
  dsimp only
  rw [expectChar_self]
  dsimp only
  rw [parse2_pad2 mo hmo]
  dsimp only
  rw [expectChar_self]
  dsimp only
  rw [parse2_pad2 da hda]
  dsimp only
  rw [expectChar_self]
  dsimp only
  rw [parse2_pad2 hr hh]
  dsimp only
  rw [expectChar_self]
  dsimp only
  rw [parse2_pad2 mi hmi]
  dsimp only
  rw [expectChar_self]
  dsimp only
  rw [parse2_pad2 se hs]
  dsimp only
  by_cases h0 : us = 0
  · subst h0
    rw [if_pos rfl]
  · rw [if_neg h0]
    dsimp only
    rw [if_pos rfl]
    rw [show pad6 us = pad6 us ++ [] from (List.append_nil _).symm,
      parse6_pad6 us hus]

theorem parseFechas_roundtrip (l : List (Symbol × DateTime))
    (h : ∀ p ∈ l, DateTime.Valid p.2) :
    parseFechas (some (l.map (fun p => (p.1, p.2.isoformat)))) = some (some l) := by
  unfold parseFechas
  dsimp only
  have : (l.map (fun p => (p.1, p.2.isoformat))).mapM
      (fun p => (fromisoformat p.2).map (fun t => (p.1, t))) = some l := by
    induction l with
    | nil => rfl
    | cons x rest ih =>
      rw [List.map_cons, List.mapM_cons]
      rw [fromisoformat_isoformat x.2 (h x (List.mem_cons_self x rest))]
      rw [ih (fun p hp => h p (List.mem_cons_of_mem x hp))]
      rfl
  rw [this]
  rfl

theorem parseEsperando_roundtrip (l : List (Symbol × EsperandoEntry))
    (h : ∀ p ∈ l, DateTime.Valid p.2.timestamp) :
    parseEsperando (some (l.map (fun p =>
      (p.1, ({ tipo := p.2.tipo, timestamp := p.2.timestamp.isoformat,
               precio_breakout := p.2.precio_breakout,
               config := p.2.config } : EsperandoDoc))))) = some (some l) := by
  unfold parseEsperando
  dsimp only
  have : (l.map (fun p =>
      (p.1, ({ tipo := p.2.tipo, timestamp := p.2.timestamp.isoformat,
               precio_breakout := p.2.precio_breakout,
               config := p.2.config } : EsperandoDoc)))).mapM
      (fun p => (fromisoformat p.2.timestamp).map (fun t =>
        (p.1, ({ tipo := p.2.tipo, timestamp := t, precio_breakout := p.2.precio_breakout,
                 config := p.2.config } : EsperandoEntry)))) = some l := by
    induction l with
    | nil => rfl
    | cons x rest ih =>
      rw [List.map_cons, List.mapM_cons]
      rw [fromisoformat_isoformat x.2.timestamp (h x (List.mem_cons_self x rest))]
      rw [ih (fun p hp => h p (List.mem_cons_of_mem x hp))]
      rfl
  rw [this]
  rfl

theorem parseBreakoutsDet_roundtrip (l : List (Symbol × BreakoutDetEntry))
    (h : ∀ p ∈ l, DateTime.Valid p.2.timestamp) :
    parseBreakoutsDet (some (l.map (fun p =>
      (p.1, ({ tipo := p.2.tipo, timestamp := p.2.timestamp.isoformat,
               precio_breakout := p.2.precio_breakout } : BreakoutDetDoc))))) =
      some (some l) := by
  unfold parseBreakoutsDet
  dsimp only
  have : (l.map (fun p =>
      (p.1, ({ tipo := p.2.tipo, timestamp := p.2.timestamp.isoformat,
               precio_breakout := p.2.precio_breakout } : BreakoutDetDoc)))).mapM
      (fun p => (fromisoformat p.2.timestamp).map (fun t =>
        (p.1, ({ tipo := p.2.tipo, timestamp := t,
                 precio_breakout := p.2.precio_breakout } : BreakoutDetEntry)))) = some l := by
    induction l with
    | nil => rfl
    | cons x rest ih =>
      rw [List.map_cons, List.mapM_cons]
      rw [fromisoformat_isoformat x.2.timestamp (h x (List.mem_cons_self x rest))]
      rw [ih (fun p hp => h p (List.mem_cons_of_mem x hp))]
      rfl
  rw [this]
  rfl

/-- C6: saving the bot state with `guardar_estado` and loading the document
back with `cargar_estado` reproduces the identical in-memory state — every
map entry, counter, set element and timestamp (to full microsecond precision,
hence at least second precision) — regardless of the state the loader starts
from and of the clock at save or load time. -/
theorem C6_guardar_cargar_roundtrip (self0 st : BotState) (now now2 : DateTime)
    (h : st.Valido) :
    TradingBot.cargar_estado self0 (some (TradingBot.guardar_estado st now)) now2 = st := by
  obtain ⟨h1, h2, h3, h4, h5⟩ := h
  unfold TradingBot.guardar_estado TradingBot.cargar_estado
  dsimp only
  rw [fromisoformat_isoformat st.ultima_optimizacion h1]
  rw [parseFechas_roundtrip st.ultima_busqueda_config h3]
  rw [parseFechas_roundtrip st.breakout_history h2]
  rw [parseEsperando_roundtrip st.esperando_reentry h4]
  rw [parseBreakoutsDet_roundtrip st.breakouts_detectados h5]
  rfl

/-- C6 witness: the nontrivial state `stBotEj` (one of its timestamps with a
nonzero microsecond field) round-trips exactly from the empty initial bot. -/
theorem C6_guardar_cargar_roundtrip_witness :
    TradingBot.cargar_estado (botInicial dtEj1)
      (some (TradingBot.guardar_estado stBotEj dtEj2)) dtEj1 = stBotEj :=
  C6_guardar_cargar_roundtrip (botInicial dtEj1) stBotEj dtEj2 dtEj1
    (by refine ⟨by decide, ?_, ?_, ?_, ?_⟩ <;> intro p hp <;> simp [stBotEj] at hp <;>
      subst hp <;> decide)

/-! ## Load-failure behavior (C7) -/

/-- A parse failure in any of the four steps before the first `self`
assignment leaves the bot state exactly as it was. -/
theorem cargar_estado_fallo_temprano (self0 : BotState) (doc : EstadoDoc) (now : DateTime)
    (hearly : falloTemprano doc) :
    TradingBot.cargar_estado self0 (some doc) now = self0 := by
  unfold TradingBot.cargar_estado
  repeat' split
  all_goals try rfl
  all_goals rcases hearly with ⟨s, hs, hps⟩ | hfail | hfail | hfail <;> simp_all

/-- `StateManager.cargar_estado` falls back to the full initial state on any
parse failure (including one in `breakouts_detectados`). -/
theorem sm_cargar_estado_fallo (doc : EstadoDoc) (now : DateTime)
    (hfail : falloTemprano doc ∨ parseBreakoutsDet doc.breakouts_detectados = none) :
    StateManager.cargar_estado (some doc) now = estadoInicial now := by
  unfold StateManager.cargar_estado
  repeat' split
  all_goals try rfl
  all_goals rcases hfail with (⟨s, hs, hps⟩ | hf | hf | hf) | hf <;> simp_all

/-- C7 (amended): loading the state never raises; a missing file leaves the
freshly initialized (empty) state untouched, and any parse failure occurring
before the `esperando_reentry` assignment of `TradingBot.cargar_estado`
(malformed `ultima_optimizacion`, `ultima_busqueda_config`,
`breakout_history` or `esperando_reentry` timestamps) leaves the state
exactly as initialized; `StateManager.cargar_estado` falls back to the
complete initial state on a missing file or any parse failure.  However, a
failure in `breakouts_detectados` after `esperando_reentry` was assigned
retains that partially loaded map in `TradingBot.cargar_estado` (see the
counterexample). -/
theorem C7_carga_segura (self0 : BotState) (doc : EstadoDoc) (now : DateTime)
    (hearly : falloTemprano doc) :
    TradingBot.cargar_estado self0 none now = self0 ∧
    TradingBot.cargar_estado self0 (some doc) now = self0 ∧
    (∀ (doc2 : EstadoDoc) (now2 : DateTime),
      falloTemprano doc2 ∨ parseBreakoutsDet doc2.breakouts_detectados = none →
      StateManager.cargar_estado (some doc2) now2 = estadoInicial now2) ∧
    (∀ now2 : DateTime, StateManager.cargar_estado none now2 = estadoInicial now2) :=
  ⟨rfl, cargar_estado_fallo_temprano self0 doc now hearly,
   fun doc2 now2 hf => sm_cargar_estado_fallo doc2 now2 hf,
   fun _ => rfl⟩

/-- C7 witness: on a state file with a malformed `ultima_optimizacion`
timestamp, loading leaves the freshly initialized state untouched (and the
StateManager falls back to the initial state). -/
theorem C7_carga_segura_witness :
    TradingBot.cargar_estado (botInicial dtEj1) none dtEj1 = botInicial dtEj1 ∧
    TradingBot.cargar_estado (botInicial dtEj1) (some docMalo) dtEj1 = botInicial dtEj1 ∧
    (∀ (doc2 : EstadoDoc) (now2 : DateTime),
      falloTemprano doc2 ∨ parseBreakoutsDet doc2.breakouts_detectados = none →
      StateManager.cargar_estado (some doc2) now2 = estadoInicial now2) ∧
    (∀ now2 : DateTime, StateManager.cargar_estado none now2 = estadoInicial now2) :=
  C7_carga_segura (botInicial dtEj1) docMalo dtEj1
    (Or.inl ⟨['b', 'a', 'd'], rfl, rfl⟩)

/-- C7 counterexample: on a file whose `esperando_reentry` parses but whose
`breakouts_detectados` timestamp is malformed, `TradingBot.cargar_estado`
catches the error after the `esperando_reentry` assignment: the result is
neither a fully loaded state nor the empty initial state — the partially
loaded `esperando_reentry` map is retained, contradicting the claim. -/
theorem C7_contraejemplo :
    (TradingBot.cargar_estado (botInicial dtEj1) (some docParcial) dtEj1).esperando_reentry =
      [("BTCUSDT", ⟨TipoBreakout.BREAKOUT_LONG, dtEj1, 100, JVal.null⟩)] ∧
    TradingBot.cargar_estado (botInicial dtEj1) (some docParcial) dtEj1 ≠
      botInicial dtEj1 := by
  have hes : parseEsperando (some [("BTCUSDT",
      ⟨TipoBreakout.BREAKOUT_LONG, dtEj1.isoformat, 100, JVal.null⟩)]) =
      some (some [("BTCUSDT", ⟨TipoBreakout.BREAKOUT_LONG, dtEj1, 100, JVal.null⟩)]) :=
    parseEsperando_roundtrip
      [("BTCUSDT", ⟨TipoBreakout.BREAKOUT_LONG, dtEj1, 100, JVal.null⟩)]
      (by intro p hp; simp at hp; subst hp; decide)
  have hres : TradingBot.cargar_estado (botInicial dtEj1) (some docParcial) dtEj1 =
      { botInicial dtEj1 with esperando_reentry :=
          [("BTCUSDT", ⟨TipoBreakout.BREAKOUT_LONG, dtEj1, 100, JVal.null⟩)] } := by
    unfold TradingBot.cargar_estado docParcial
    dsimp only
    rw [hes]
    rfl
  constructor
  · rw [hres]
  · rw [hres]
    intro heq
    have := congrArg BotState.esperando_reentry heq
    simp [botInicial] at this

end CocoBot
